import Mathlib

/-!
# Verification of the `gdc_rust_types` wire contract

Shallow embedding of the serde-derived JSON (de)serialization of the crate's
IR types, translated from `src/capabilities.rs`, `src/error.rs`,
`src/mutation.rs`, `src/query.rs` and `src/schema.rs`.

Modelling conventions:
* JSON numbers are modelled as integers (`Int`); every claim under study
  involves only integral numbers.  `u64` fields hold a `Nat`, `i64` fields an
  `Int`; the deserializers enforce the corresponding ranges.
* `indexmap::IndexMap` is modelled as an ordered association list.  Its
  deserializer follows indexmap's map visitor: entries are inserted left to
  right, a repeated key overwrites the value in place (`imInsert`).  Values
  built from Rust always have distinct keys; where a theorem needs that
  representation invariant it carries an explicit `Nodup`-style hypothesis.
* Struct and internally-tagged-enum deserializers mirror the visitor loop
  generated by serde derive on JSON object inputs: entries are scanned in
  order, a duplicate known field is an error, unknown fields are ignored, a
  missing `Option` field is `none`, a `null` value for an `Option` field is
  `none`, and a missing required field is an error.  The response-model
  structs, which are reached through untagged `Content` buffering, also
  accept serde's positional struct-from-seq encoding: a `ResponseRow` parses
  from a two-element array (`[aggregates, rows]`), a `ForEachRow` from a
  one-element array, and the `ForEach` variant from a one-element array;
  extra or missing positional elements are an error.  Map types
  (`IndexMap`) deserialize from JSON objects only.
* `#[serde(untagged)]` enums try their variants in declaration order against
  the buffered value and commit to the first variant that deserializes.
* `#[skip_serializing_none]` (and the explicit `skip_serializing_if` on
  `OrderByRelation.where`) is modelled by `mkObj`, which drops absent
  optional members; serialized struct members appear in field declaration
  order, and an internally tagged enum emits its `type` tag first.
* `serde_enum_str` enums serialize to their snake_case variant name, the
  `#[serde(other)]` fallback to its carried string; they deserialize from a
  string only, matching declared names first.
-/

namespace GdcTypes

/-- JSON values (`serde_json::Value` with integral numbers). -/
inductive Json where
  | null
  | bool (b : Bool)
  | num (n : Int)
  | str (s : String)
  | arr (elems : List Json)
  | obj (members : List (String × Json))

/-- Keys of a JSON object (empty for non-objects). -/
def keysOf : Json → List String
  | .obj kvs => kvs.map Prod.fst
  | _ => []

/-- Is the value a JSON object? -/
def isObj : Json → Bool
  | .obj _ => true
  | _ => false

/-- Could the value be accepted by the two-field `ResponseRow` struct
deserializer: a JSON object (map encoding) or a two-element array (serde's
positional seq encoding)?  Values of any other shape never parse as a
`ResponseRow`. -/
def isRowShaped : Json → Bool
  | .obj _ => true
  | .arr [_, _] => true
  | _ => false

/-- Assemble a struct's JSON object from optional members, dropping the
absent ones: the model of `#[skip_serializing_none]` /
`skip_serializing_if = "Option::is_none"`.  Required members are passed as
`some`. -/
def mkObj (fields : List (String × Option Json)) : Json :=
  .obj (fields.filterMap (fun p => p.2.map (fun v => (p.1, v))))

/-- `IndexMap::insert`: overwrite in place if the key is present, append
otherwise. -/
def imInsert (m : List (String × α)) (k : String) (v : α) : List (String × α) :=
  if m.any (fun p => p.1 = k) then
    m.map (fun p => if p.1 = k then (p.1, v) else p)
  else m ++ [(k, v)]

/-- indexmap's map visitor: insert the parsed entries left to right. -/
def imFromEntries (entries : List (String × α)) : List (String × α) :=
  entries.foldl (fun m p => imInsert m p.1 p.2) []

/-- Deserialize a Rust `String`. -/
def deserString : Json → Option String
  | .str s => some s
  | _ => none

/-- Deserialize a Rust `bool`. -/
def deserBool : Json → Option Bool
  | .bool b => some b
  | _ => none

/-- Deserialize a `u64` (an integral JSON number in `[0, 2^64)`). -/
def deserU64 : Json → Option Nat
  | .num n => if 0 ≤ n ∧ n < 2 ^ 64 then some n.toNat else none
  | _ => none

/-- Deserialize an `i64` (an integral JSON number in `[-2^63, 2^63)`). -/
def deserI64 : Json → Option Int
  | .num n => if -(2 ^ 63) ≤ n ∧ n < 2 ^ 63 then some n else none
  | _ => none

/-- Parse every element of a list, failing if any element fails. -/
def mapParse (p : Json → Option α) : List Json → Option (List α)
  | [] => some []
  | j :: rest =>
    match p j, mapParse p rest with
    | some a, some tail => some (a :: tail)
    | _, _ => none

/-- Parse every value of an entry list, failing if any value fails. -/
def mapParseEntries (p : Json → Option α) :
    List (String × Json) → Option (List (String × α))
  | [] => some []
  | (k, v) :: rest =>
    match p v, mapParseEntries p rest with
    | some a, some tail => some ((k, a) :: tail)
    | _, _ => none

/-- Deserialize a `Vec<String>`. -/
def deserStringList : Json → Option (List String)
  | .arr xs => mapParse deserString xs
  | _ => none

/-- Deserialize an `IndexMap<String, T>` given a parser for `T` (for
non-recursive `T`). -/
def deserMapWith (p : Json → Option α) : Json → Option (List (String × α))
  | .obj kvs => (mapParseEntries p kvs).map imFromEntries
  | _ => none

/-- Deserialize a `Vec<T>` given a parser for `T` (for non-recursive `T`). -/
def deserListWith (p : Json → Option α) : Json → Option (List α)
  | .arr xs => mapParse p xs
  | _ => none

/-- An `Option<T>` member value: `null` parses to `None` (for non-recursive
`T`). -/
def deserOpt (p : Json → Option α) : Json → Option (Option α)
  | .null => some none
  | j => (p j).map some

/-- The tag of an internally tagged enum (`#[serde(tag = "type")]`): the
object must contain exactly one `type` member and its value must be a
string. -/
def getTag (kvs : List (String × Json)) : Option String :=
  match kvs.filter (fun p => p.1 = "type") with
  | [(_, .str s)] => some s
  | _ => none

/-- Look up a required or optional struct member among the non-tag entries:
`none` result is a duplicate-field error, `some none` an absent field. -/
def getField (kvs : List (String × Json)) (k : String) : Option (Option Json) :=
  match kvs.filter (fun p => p.1 = k) with
  | [] => some none
  | [p] => some (some p.2)
  | _ => none

/-- Parse a required struct member with parser `p`. -/
def reqField (kvs : List (String × Json)) (k : String) (p : Json → Option α) :
    Option α := do
  match ← getField kvs k with
  | none => none
  | some j => p j

/-- Parse an `Option` struct member with parser `p` (absent or `null` is
`none`). -/
def optField (kvs : List (String × Json)) (k : String) (p : Json → Option α) :
    Option (Option α) := do
  match ← getField kvs k with
  | none => pure none
  | some j => deserOpt p j

/-! ## Response model (`src/query.rs`, lines 323–351) -/

mutual
/-- `ResponseRow` (query.rs 337–344): optional `aggregates` and `rows`. -/
inductive ResponseRow where
  | mk (aggregates : Option (List (String × Json)))
       (rows : Option (List (List (String × ResponseFieldValue))))

/-- `ResponseFieldValue` (query.rs 346–351): untagged union of a nested
`ResponseRow` and a plain JSON column value. -/
inductive ResponseFieldValue where
  | relationship (row : ResponseRow)
  | column (value : Json)
end

/-- `ResponseRow.aggregates` accessor. -/
def ResponseRow.aggregates : ResponseRow → Option (List (String × Json))
  | .mk a _ => a

/-- `ResponseRow.rows` accessor. -/
def ResponseRow.rows :
    ResponseRow → Option (List (List (String × ResponseFieldValue)))
  | .mk _ r => r

mutual
/-- Serialize a `ResponseRow` (fields in declaration order, absent options
omitted). -/
def serResponseRow : ResponseRow → Json
  | .mk agg rows =>
    mkObj [("aggregates", agg.map Json.obj),
           ("rows", serResponseRowsMember rows)]

/-- Serialized value of an optional `rows` member. -/
def serResponseRowsMember :
    Option (List (List (String × ResponseFieldValue))) → Option Json
  | none => none
  | some rs => some (Json.arr (serResponseRows rs))

/-- Serialize the `rows` vector of a `ResponseRow`. -/
def serResponseRows : List (List (String × ResponseFieldValue)) → List Json
  | [] => []
  | r :: rest => Json.obj (serResponseCells r) :: serResponseRows rest

/-- Serialize one row's field-name → value map. -/
def serResponseCells : List (String × ResponseFieldValue) → List (String × Json)
  | [] => []
  | (k, v) :: rest => (k, serResponseFieldValue v) :: serResponseCells rest

/-- Serialize a `ResponseFieldValue`: untagged, so the variant payload is
emitted directly. -/
def serResponseFieldValue : ResponseFieldValue → Json
  | .relationship r => serResponseRow r
  | .column j => j
end

/-- Parse the value of an `aggregates` member:
`Option<IndexMap<String, serde_json::Value>>`. -/
def parseAggregatesMember : Json → Option (Option (List (String × Json)))
  | .null => some none
  | .obj m => some (some (imFromEntries m))
  | _ => none

mutual
/-- Deserialize a `ResponseRow`: from a JSON object via the visitor loop, or
from a two-element array via serde's positional `visit_seq` path (field
declaration order: `aggregates`, then `rows`; any other arity is an
`invalid_length` error). -/
def deserResponseRow : Json → Option ResponseRow
  | .obj kvs => deserResponseRowGo kvs none none
  | .arr [a, r] =>
    (match parseAggregatesMember a with
     | none => none
     | some agg =>
       match r with
       | .null => some (.mk agg none)
       | .arr xs =>
         match deserResponseRowsArr xs with
         | some rs => some (.mk agg (some rs))
         | none => none
       | _ => none)
  | _ => none

/-- serde's struct visitor loop for `ResponseRow`: scan entries in order with
seen-flags for the two known fields (duplicate known field is an error,
unknown fields are ignored). -/
def deserResponseRowGo : List (String × Json) →
    Option (Option (List (String × Json))) →
    Option (Option (List (List (String × ResponseFieldValue)))) →
    Option ResponseRow
  | [], agg, rows => some (.mk agg.join rows.join)
  | ("aggregates", v) :: rest, agg, rows =>
    match agg, parseAggregatesMember v with
    | none, some a => deserResponseRowGo rest (some a) rows
    | _, _ => none
  | ("rows", v) :: rest, agg, rows =>
    match rows with
    | some _ => none
    | none =>
      match v with
      | .null => deserResponseRowGo rest agg (some none)
      | .arr xs =>
        match deserResponseRowsArr xs with
        | some rs => deserResponseRowGo rest agg (some (some rs))
        | none => none
      | _ => none
  | _ :: rest, agg, rows => deserResponseRowGo rest agg rows

/-- Deserialize the `rows` array: each element must be an object of
`ResponseFieldValue`s. -/
def deserResponseRowsArr :
    List Json → Option (List (List (String × ResponseFieldValue)))
  | [] => some []
  | j :: rest =>
    match j with
    | .obj m =>
      match deserResponseCellEntries m [] with
      | some row =>
        match deserResponseRowsArr rest with
        | some rs => some (row :: rs)
        | none => none
      | none => none
    | _ => none

/-- indexmap's visitor for one row: parse each member as a
`ResponseFieldValue` and insert.  The untagged `ResponseFieldValue` try-order
is inlined here: the `Relationship` variant is attempted first and the
`Column` catch-all second. -/
def deserResponseCellEntries : List (String × Json) →
    List (String × ResponseFieldValue) →
    Option (List (String × ResponseFieldValue))
  | [], acc => some acc
  | (k, v) :: rest, acc =>
    match deserResponseRow v with
    | some r => deserResponseCellEntries rest (imInsert acc k (.relationship r))
    | none => deserResponseCellEntries rest (imInsert acc k (.column v))
end

/-- Deserialize a `ResponseFieldValue`: the untagged variants are tried in
declaration order (`Relationship`, then the `Column` catch-all, which accepts
any JSON value). -/
def deserResponseFieldValue (j : Json) : Option ResponseFieldValue :=
  match deserResponseRow j with
  | some r => some (.relationship r)
  | none => some (.column j)

/-- `ForEachRow` (query.rs 332–335). -/
structure ForEachRow where
  query : ResponseRow

/-- `QueryResponse` (query.rs 323–330): untagged union, `ForEach` declared
before `Single`. -/
inductive QueryResponse where
  | forEach (rows : List ForEachRow)
  | single (r : ResponseRow)

/-- Serialize a `ForEachRow` (single required field `query`). -/
def serForEachRow (fr : ForEachRow) : Json :=
  .obj [("query", serResponseRow fr.query)]

/-- Serialize a `QueryResponse` (untagged: payload emitted directly). -/
def serQueryResponse : QueryResponse → Json
  | .forEach rows => .obj [("rows", .arr (rows.map serForEachRow))]
  | .single r => serResponseRow r

/-- Deserialize a `ForEachRow`: required `query` member (unknown members
ignored), or serde's positional seq encoding as a one-element array. -/
def deserForEachRow : Json → Option ForEachRow
  | .obj kvs => (reqField kvs "query" deserResponseRow).map ForEachRow.mk
  | .arr [q] => (deserResponseRow q).map ForEachRow.mk
  | _ => none

/-- Attempt the `ForEach` struct variant of `QueryResponse`: an object with a
required `rows` member holding an array of `ForEachRow`s, or serde's
positional seq encoding as a one-element array holding that `rows` array. -/
def deserForEachVariant : Json → Option (List ForEachRow)
  | .obj kvs => reqField kvs "rows" (deserListWith deserForEachRow)
  | .arr [v] => deserListWith deserForEachRow v
  | _ => none

/-- Deserialize a `QueryResponse`: untagged, `ForEach` is attempted first and
the result commits to the first structural match. -/
def deserQueryResponse (j : Json) : Option QueryResponse :=
  match deserForEachVariant j with
  | some rows => some (.forEach rows)
  | none => (deserResponseRow j).map .single

/-! ## Operator enums with an `Other(String)` fallback
(`serde_enum_str`, query.rs 270–296) -/

/-- `UnaryComparisonOperator` (query.rs 270–276). -/
inductive UnaryComparisonOperator where
  | isNull
  | other (s : String)

/-- Serialize: snake_case variant name; the `#[serde(other)]` fallback emits
its literal string. -/
def serUnaryComparisonOperator : UnaryComparisonOperator → Json
  | .isNull => .str "is_null"
  | .other s => .str s

/-- Deserialize from a string: declared names first, anything else becomes
`Other`. -/
def deserUnaryComparisonOperator : Json → Option UnaryComparisonOperator
  | .str s => some (if s = "is_null" then .isNull else .other s)
  | _ => none

/-- Round-trip well-formedness: an `Other` payload is not a declared variant
name. -/
def wfUnaryComparisonOperator : UnaryComparisonOperator → Bool
  | .isNull => true
  | .other s => decide (s ≠ "is_null")

/-- `BinaryComparisonOperator` (query.rs 278–288). -/
inductive BinaryComparisonOperator where
  | lessThan
  | lessThanOrEqual
  | equal
  | greaterThan
  | greaterThanOrEqual
  | other (s : String)

/-- Serialize a `BinaryComparisonOperator`. -/
def serBinaryComparisonOperator : BinaryComparisonOperator → Json
  | .lessThan => .str "less_than"
  | .lessThanOrEqual => .str "less_than_or_equal"
  | .equal => .str "equal"
  | .greaterThan => .str "greater_than"
  | .greaterThanOrEqual => .str "greater_than_or_equal"
  | .other s => .str s

/-- Deserialize a `BinaryComparisonOperator` from a string. -/
def deserBinaryComparisonOperator : Json → Option BinaryComparisonOperator
  | .str s => some
      (if s = "less_than" then .lessThan
       else if s = "less_than_or_equal" then .lessThanOrEqual
       else if s = "equal" then .equal
       else if s = "greater_than" then .greaterThan
       else if s = "greater_than_or_equal" then .greaterThanOrEqual
       else .other s)
  | _ => none

/-- Round-trip well-formedness for `BinaryComparisonOperator`. -/
def wfBinaryComparisonOperator : BinaryComparisonOperator → Bool
  | .other s => decide (s ≠ "less_than" ∧ s ≠ "less_than_or_equal" ∧
      s ≠ "equal" ∧ s ≠ "greater_than" ∧ s ≠ "greater_than_or_equal")
  | _ => true

/-- `BinaryArrayComparisonOperator` (query.rs 290–296). -/
inductive BinaryArrayComparisonOperator where
  | inOp
  | other (s : String)

/-- Serialize a `BinaryArrayComparisonOperator` (`In` renames to `in`). -/
def serBinaryArrayComparisonOperator : BinaryArrayComparisonOperator → Json
  | .inOp => .str "in"
  | .other s => .str s

/-- Deserialize a `BinaryArrayComparisonOperator` from a string. -/
def deserBinaryArrayComparisonOperator :
    Json → Option BinaryArrayComparisonOperator
  | .str s => some (if s = "in" then .inOp else .other s)
  | _ => none

/-- Round-trip well-formedness for `BinaryArrayComparisonOperator`. -/
def wfBinaryArrayComparisonOperator : BinaryArrayComparisonOperator → Bool
  | .inOp => true
  | .other s => decide (s ≠ "in")

/-! ## Request model (`src/query.rs`, lines 10–321) -/

/-- `RelationshipType` (query.rs 98–103). -/
inductive RelationshipType where
  | object
  | array

/-- `ArgumentValue` (query.rs 66–73). -/
inductive ArgumentValue where
  | scalar (value : Json) (value_type : String)

/-- `FunctionRequestArgument` (query.rs 60–64). -/
inductive FunctionRequestArgument where
  | named (name : String) (value : ArgumentValue)

/-- `Target` (query.rs 44–58): a table name, an interpolated-query id, or a
function with arguments.  `TableName`/`FunctionName` are `Vec<String>`
(capabilities.rs 6–9). -/
inductive Target where
  | table (name : List String)
  | interpolated (id : String)
  | function (name : List String) (arguments : List FunctionRequestArgument)

/-- `ScalarValue` (query.rs 75–79). -/
structure ScalarValue where
  value : Json
  value_type : String

/-- `Relationship` (query.rs 89–96). -/
structure Relationship where
  column_mapping : List (String × String)
  relationship_type : RelationshipType
  target : Target

/-- `TableRelationships` (query.rs 81–87). -/
structure TableRelationships where
  relationships : List (String × Relationship)
  source_table : List String

/-- `InterpolatedItem` (query.rs 32–42). -/
inductive InterpolatedItem where
  | text (value : String)
  | scalar (value : Json) (value_type : String)

/-- `InterpolatedQuery` (query.rs 23–30). -/
structure InterpolatedQuery where
  id : String
  items : List InterpolatedItem

/-- `ColumnSelector` (query.rs 216–221): untagged, `Compound` declared before
`Name`. -/
inductive ColumnSelector where
  | compound (path : List String)
  | name (n : String)

/-- `ComparisonColumn` (query.rs 260–268). -/
structure ComparisonColumn where
  column_type : String
  name : ColumnSelector
  path : Option (List String)

/-- `ComparisonValue` (query.rs 298–308). -/
inductive ComparisonValue where
  | column (column : ComparisonColumn)
  | scalar (value : Json) (value_type : String)

/-- `ExistsInTable` (query.rs 310–321). -/
inductive ExistsInTable where
  | related (relationship : String)
  | unrelated (table : List String)

/-- `Expression` (query.rs 223–258). -/
inductive Expression where
  | and (expressions : List Expression)
  | or (expressions : List Expression)
  | not (expression : Expression)
  | applyUnaryComparison (column : ComparisonColumn)
      (operator : UnaryComparisonOperator)
  | applyBinaryComparison (column : ComparisonColumn)
      (operator : BinaryComparisonOperator) (value : ComparisonValue)
  | applyBinaryArrayComparison (column : ComparisonColumn)
      (operator : BinaryArrayComparisonOperator) (value_type : String)
      (values : List Json)
  | exists_ (in_table : ExistsInTable) (where_ : Expression)

/-- `Aggregate` (query.rs 123–140). -/
inductive Aggregate where
  | columnCount (column : String) (distinct : Bool)
  | singleColumn (column : String) (function : String) (result_type : String)
  | starCount

/-- `OrderDirection` (query.rs 193–198). -/
inductive OrderDirection where
  | asc
  | desc

/-- `OrderByTarget` (query.rs 200–214). -/
inductive OrderByTarget where
  | column (column : ColumnSelector)
  | singleColumnAggregate (column : String) (function : String)
      (result_type : String)
  | starCountAggregate

/-- `OrderByElement` (query.rs 176–182). -/
structure OrderByElement where
  order_direction : OrderDirection
  target : OrderByTarget
  target_path : List String

/-- `OrderByRelation` (query.rs 184–191): recursive `subrelations` map plus
an optional `where` filter. -/
inductive OrderByRelation where
  | mk (subrelations : List (String × OrderByRelation))
       (where_ : Option Expression)

/-- `OrderBy` (query.rs 168–174). -/
structure OrderBy where
  elements : List OrderByElement
  relations : List (String × OrderByRelation)

mutual
/-- `Query` (query.rs 105–121): all seven fields are optional. -/
inductive Query where
  | mk (aggregates : Option (List (String × Aggregate)))
       (aggregates_limit : Option Nat)
       (fields : Option (List (String × Field)))
       (limit : Option Nat)
       (offset : Option Nat)
       (order_by : Option OrderBy)
       (where_ : Option Expression)

/-- `Field` (query.rs 142–166).  `Array.limit`/`Array.offset` are `i64`,
unlike the `u64` limits of `Query`. -/
inductive Field where
  | column (column : String) (column_type : String)
  | object (column : String) (query : Query)
  | array (field : Field) (limit : Option Int) (offset : Option Int)
      (where_ : Option OrderBy)
  | relationship (query : Query) (relationship : String)
end

/-- `QueryRequest` (query.rs 10–21). -/
structure QueryRequest where
  foreach : Option (List (List (String × ScalarValue)))
  interpolated_queries : Option (List (String × InterpolatedQuery))
  query : Query
  target : Target
  relationships : List TableRelationships

/-! ### Request-model serializers -/

/-- Serialize a `RelationshipType`. -/
def serRelationshipType : RelationshipType → Json
  | .object => .str "object"
  | .array => .str "array"

/-- Serialize an `ArgumentValue` (internally tagged). -/
def serArgumentValue : ArgumentValue → Json
  | .scalar v t =>
    .obj [("type", .str "scalar"), ("value", v), ("value_type", .str t)]

/-- Serialize a `FunctionRequestArgument`. -/
def serFunctionRequestArgument : FunctionRequestArgument → Json
  | .named n v =>
    .obj [("type", .str "named"), ("name", .str n), ("value", serArgumentValue v)]

/-- Serialize a `Target`. -/
def serTarget : Target → Json
  | .table name =>
    .obj [("type", .str "table"), ("name", .arr (name.map .str))]
  | .interpolated id =>
    .obj [("type", .str "interpolated"), ("id", .str id)]
  | .function name args =>
    .obj [("type", .str "function"), ("name", .arr (name.map .str)),
          ("arguments", .arr (args.map serFunctionRequestArgument))]

/-- Serialize a `ScalarValue`. -/
def serScalarValue (sv : ScalarValue) : Json :=
  .obj [("value", sv.value), ("value_type", .str sv.value_type)]

/-- Serialize a `Relationship`. -/
def serRelationship (r : Relationship) : Json :=
  .obj [("column_mapping",
          .obj (r.column_mapping.map (fun p => (p.1, .str p.2)))),
        ("relationship_type", serRelationshipType r.relationship_type),
        ("target", serTarget r.target)]

/-- Serialize a `TableRelationships`. -/
def serTableRelationships (tr : TableRelationships) : Json :=
  .obj [("relationships",
          .obj (tr.relationships.map (fun p => (p.1, serRelationship p.2)))),
        ("source_table", .arr (tr.source_table.map .str))]

/-- Serialize an `InterpolatedItem`. -/
def serInterpolatedItem : InterpolatedItem → Json
  | .text v => .obj [("type", .str "text"), ("value", .str v)]
  | .scalar v t =>
    .obj [("type", .str "scalar"), ("value", v), ("value_type", .str t)]

/-- Serialize an `InterpolatedQuery`. -/
def serInterpolatedQuery (iq : InterpolatedQuery) : Json :=
  .obj [("id", .str iq.id), ("items", .arr (iq.items.map serInterpolatedItem))]

/-- Serialize a `ColumnSelector` (untagged: bare array or bare string). -/
def serColumnSelector : ColumnSelector → Json
  | .compound path => .arr (path.map .str)
  | .name n => .str n

/-- Serialize a `ComparisonColumn` (`path` omitted when absent). -/
def serComparisonColumn (c : ComparisonColumn) : Json :=
  mkObj [("column_type", some (.str c.column_type)),
         ("name", some (serColumnSelector c.name)),
         ("path", c.path.map (fun p => .arr (p.map .str)))]

/-- Serialize a `ComparisonValue`. -/
def serComparisonValue : ComparisonValue → Json
  | .column c => .obj [("type", .str "column"), ("column", serComparisonColumn c)]
  | .scalar v t =>
    .obj [("type", .str "scalar"), ("value", v), ("value_type", .str t)]

/-- Serialize an `ExistsInTable`. -/
def serExistsInTable : ExistsInTable → Json
  | .related r => .obj [("type", .str "related"), ("relationship", .str r)]
  | .unrelated t =>
    .obj [("type", .str "unrelated"), ("table", .arr (t.map .str))]

mutual
/-- Serialize an `Expression` (internally tagged, `unary_op`/`binary_op`/
`binary_arr_op` renames). -/
def serExpression : Expression → Json
  | .and es => .obj [("type", .str "and"), ("expressions", .arr (serExprList es))]
  | .or es => .obj [("type", .str "or"), ("expressions", .arr (serExprList es))]
  | .not e => .obj [("type", .str "not"), ("expression", serExpression e)]
  | .applyUnaryComparison c op =>
    .obj [("type", .str "unary_op"), ("column", serComparisonColumn c),
          ("operator", serUnaryComparisonOperator op)]
  | .applyBinaryComparison c op v =>
    .obj [("type", .str "binary_op"), ("column", serComparisonColumn c),
          ("operator", serBinaryComparisonOperator op),
          ("value", serComparisonValue v)]
  | .applyBinaryArrayComparison c op vt vs =>
    .obj [("type", .str "binary_arr_op"), ("column", serComparisonColumn c),
          ("operator", serBinaryArrayComparisonOperator op),
          ("value_type", .str vt), ("values", .arr vs)]
  | .exists_ it w =>
    .obj [("type", .str "exists"), ("in_table", serExistsInTable it),
          ("where", serExpression w)]

/-- Serialize a list of expressions. -/
def serExprList : List Expression → List Json
  | [] => []
  | e :: rest => serExpression e :: serExprList rest
end

/-- Serialize an `Aggregate`. -/
def serAggregate : Aggregate → Json
  | .columnCount c d =>
    .obj [("type", .str "column_count"), ("column", .str c), ("distinct", .bool d)]
  | .singleColumn c f rt =>
    .obj [("type", .str "single_column"), ("column", .str c),
          ("function", .str f), ("result_type", .str rt)]
  | .starCount => .obj [("type", .str "star_count")]

/-- Serialize an `OrderDirection`. -/
def serOrderDirection : OrderDirection → Json
  | .asc => .str "asc"
  | .desc => .str "desc"

/-- Serialize an `OrderByTarget`. -/
def serOrderByTarget : OrderByTarget → Json
  | .column c => .obj [("type", .str "column"), ("column", serColumnSelector c)]
  | .singleColumnAggregate c f rt =>
    .obj [("type", .str "single_column_aggregate"), ("column", .str c),
          ("function", .str f), ("result_type", .str rt)]
  | .starCountAggregate => .obj [("type", .str "star_count_aggregate")]

/-- Serialize an `OrderByElement`. -/
def serOrderByElement (e : OrderByElement) : Json :=
  .obj [("order_direction", serOrderDirection e.order_direction),
        ("target", serOrderByTarget e.target),
        ("target_path", .arr (e.target_path.map .str))]

mutual
/-- Serialize an `OrderByRelation` (`where` omitted when absent via its
`skip_serializing_if`). -/
def serOrderByRelation : OrderByRelation → Json
  | .mk subs w =>
    mkObj [("subrelations", some (.obj (serOrderByRelationEntries subs))),
           ("where",
             match w with
             | none => none
             | some e => some (serExpression e))]

/-- Serialize a `subrelations` map. -/
def serOrderByRelationEntries :
    List (String × OrderByRelation) → List (String × Json)
  | [] => []
  | (k, r) :: rest => (k, serOrderByRelation r) :: serOrderByRelationEntries rest
end

/-- Serialize an `OrderBy`. -/
def serOrderBy (ob : OrderBy) : Json :=
  .obj [("elements", .arr (ob.elements.map serOrderByElement)),
        ("relations",
          .obj (ob.relations.map (fun p => (p.1, serOrderByRelation p.2))))]

mutual
/-- Serialize a `Query` (fields in declaration order, absent options
omitted). -/
def serQuery : Query → Json
  | .mk a al f l o ob w =>
    mkObj [("aggregates",
             a.map (fun m => Json.obj (m.map (fun p => (p.1, serAggregate p.2))))),
           ("aggregates_limit", al.map (fun n => Json.num (Int.ofNat n))),
           ("fields", serQueryFieldsMember f),
           ("limit", l.map (fun n => Json.num (Int.ofNat n))),
           ("offset", o.map (fun n => Json.num (Int.ofNat n))),
           ("order_by", ob.map serOrderBy),
           ("where", w.map serExpression)]

/-- Serialized value of an optional `fields` member. -/
def serQueryFieldsMember : Option (List (String × Field)) → Option Json
  | none => none
  | some fm => some (Json.obj (serFieldEntries fm))

/-- Serialize a `Field` (internally tagged; the `Array` variant's optional
members are omitted when absent). -/
def serField : Field → Json
  | .column c t =>
    .obj [("type", .str "column"), ("column", .str c), ("column_type", .str t)]
  | .object c q =>
    .obj [("type", .str "object"), ("column", .str c), ("query", serQuery q)]
  | .array fl li o w =>
    mkObj [("type", some (.str "array")), ("field", some (serField fl)),
           ("limit", li.map (fun n => Json.num n)),
           ("offset", o.map (fun n => Json.num n)),
           ("where", w.map serOrderBy)]
  | .relationship q r =>
    .obj [("type", .str "relationship"), ("query", serQuery q),
          ("relationship", .str r)]

/-- Serialize a `fields` map. -/
def serFieldEntries : List (String × Field) → List (String × Json)
  | [] => []
  | (k, fl) :: rest => (k, serField fl) :: serFieldEntries rest
end

/-- Serialize a `QueryRequest`. -/
def serQueryRequest (qr : QueryRequest) : Json :=
  mkObj [("foreach",
           qr.foreach.map (fun rows =>
             .arr (rows.map (fun row =>
               Json.obj (row.map (fun p => (p.1, serScalarValue p.2))))))),
         ("interpolated_queries",
           qr.interpolated_queries.map (fun m =>
             Json.obj (m.map (fun p => (p.1, serInterpolatedQuery p.2))))),
         ("query", some (serQuery qr.query)),
         ("target", some (serTarget qr.target)),
         ("relationships",
           some (.arr (qr.relationships.map serTableRelationships)))]

/-! ### Request-model deserializers -/

/-- Deserialize a `RelationshipType` (unit variants from their snake_case
names). -/
def deserRelationshipType : Json → Option RelationshipType
  | .str s =>
    if s = "object" then some .object
    else if s = "array" then some .array
    else none
  | _ => none

/-- Deserialize an `ArgumentValue`. -/
def deserArgumentValue : Json → Option ArgumentValue
  | .obj kvs =>
    match getTag kvs with
    | some "scalar" => do
      let v ← reqField kvs "value" some
      let t ← reqField kvs "value_type" deserString
      pure (.scalar v t)
    | _ => none
  | _ => none

/-- Deserialize a `FunctionRequestArgument`. -/
def deserFunctionRequestArgument : Json → Option FunctionRequestArgument
  | .obj kvs =>
    match getTag kvs with
    | some "named" => do
      let n ← reqField kvs "name" deserString
      let v ← reqField kvs "value" deserArgumentValue
      pure (.named n v)
    | _ => none
  | _ => none

/-- Deserialize a `Target`.  Note: nothing rejects an empty `name` array,
although `TableName`/`FunctionName` are documented as non-empty
(capabilities.rs 6–9). -/
def deserTarget : Json → Option Target
  | .obj kvs =>
    match getTag kvs with
    | some "table" => do
      let n ← reqField kvs "name" deserStringList
      pure (.table n)
    | some "interpolated" => do
      let i ← reqField kvs "id" deserString
      pure (.interpolated i)
    | some "function" => do
      let n ← reqField kvs "name" deserStringList
      let args ← reqField kvs "arguments"
        (deserListWith deserFunctionRequestArgument)
      pure (.function n args)
    | _ => none
  | _ => none

/-- Deserialize a `ScalarValue`. -/
def deserScalarValue : Json → Option ScalarValue
  | .obj kvs => do
    let v ← reqField kvs "value" some
    let t ← reqField kvs "value_type" deserString
    pure ⟨v, t⟩
  | _ => none

/-- Deserialize a `Relationship`. -/
def deserRelationship : Json → Option Relationship
  | .obj kvs => do
    let cm ← reqField kvs "column_mapping" (deserMapWith deserString)
    let rt ← reqField kvs "relationship_type" deserRelationshipType
    let t ← reqField kvs "target" deserTarget
    pure ⟨cm, rt, t⟩
  | _ => none

/-- Deserialize a `TableRelationships`. -/
def deserTableRelationships : Json → Option TableRelationships
  | .obj kvs => do
    let rels ← reqField kvs "relationships" (deserMapWith deserRelationship)
    let st ← reqField kvs "source_table" deserStringList
    pure ⟨rels, st⟩
  | _ => none

/-- Deserialize an `InterpolatedItem`. -/
def deserInterpolatedItem : Json → Option InterpolatedItem
  | .obj kvs =>
    match getTag kvs with
    | some "text" => do
      let v ← reqField kvs "value" deserString
      pure (.text v)
    | some "scalar" => do
      let v ← reqField kvs "value" some
      let t ← reqField kvs "value_type" deserString
      pure (.scalar v t)
    | _ => none
  | _ => none

/-- Deserialize an `InterpolatedQuery`. -/
def deserInterpolatedQuery : Json → Option InterpolatedQuery
  | .obj kvs => do
    let i ← reqField kvs "id" deserString
    let items ← reqField kvs "items" (deserListWith deserInterpolatedItem)
    pure ⟨i, items⟩
  | _ => none

/-- Deserialize a `ColumnSelector`: untagged, `Compound` (array of strings)
is attempted before `Name` (bare string). -/
def deserColumnSelector : Json → Option ColumnSelector
  | .arr xs => (mapParse deserString xs).map .compound
  | .str s => some (.name s)
  | _ => none

/-- Deserialize a `ComparisonColumn`. -/
def deserComparisonColumn : Json → Option ComparisonColumn
  | .obj kvs => do
    let ct ← reqField kvs "column_type" deserString
    let n ← reqField kvs "name" deserColumnSelector
    let p ← optField kvs "path" deserStringList
    pure ⟨ct, n, p⟩
  | _ => none

/-- Deserialize a `ComparisonValue`. -/
def deserComparisonValue : Json → Option ComparisonValue
  | .obj kvs =>
    match getTag kvs with
    | some "column" => do
      let c ← reqField kvs "column" deserComparisonColumn
      pure (.column c)
    | some "scalar" => do
      let v ← reqField kvs "value" some
      let t ← reqField kvs "value_type" deserString
      pure (.scalar v t)
    | _ => none
  | _ => none

/-- Deserialize an `ExistsInTable`. -/
def deserExistsInTable : Json → Option ExistsInTable
  | .obj kvs =>
    match getTag kvs with
    | some "related" => do
      let r ← reqField kvs "relationship" deserString
      pure (.related r)
    | some "unrelated" => do
      let t ← reqField kvs "table" deserStringList
      pure (.unrelated t)
    | _ => none
  | _ => none

/-- Deserialize an `Aggregate`. -/
def deserAggregate : Json → Option Aggregate
  | .obj kvs =>
    match getTag kvs with
    | some "column_count" => do
      let c ← reqField kvs "column" deserString
      let d ← reqField kvs "distinct" deserBool
      pure (.columnCount c d)
    | some "single_column" => do
      let c ← reqField kvs "column" deserString
      let f ← reqField kvs "function" deserString
      let rt ← reqField kvs "result_type" deserString
      pure (.singleColumn c f rt)
    | some "star_count" => some .starCount
    | _ => none
  | _ => none

/-- Deserialize an `OrderDirection`. -/
def deserOrderDirection : Json → Option OrderDirection
  | .str s =>
    if s = "asc" then some .asc
    else if s = "desc" then some .desc
    else none
  | _ => none

/-- Deserialize an `OrderByTarget`. -/
def deserOrderByTarget : Json → Option OrderByTarget
  | .obj kvs =>
    match getTag kvs with
    | some "column" => do
      let c ← reqField kvs "column" deserColumnSelector
      pure (.column c)
    | some "single_column_aggregate" => do
      let c ← reqField kvs "column" deserString
      let f ← reqField kvs "function" deserString
      let rt ← reqField kvs "result_type" deserString
      pure (.singleColumnAggregate c f rt)
    | some "star_count_aggregate" => some .starCountAggregate
    | _ => none
  | _ => none

/-- Deserialize an `OrderByElement`.  Note: nothing rejects an empty
`target_path` for aggregate targets, although the field is documented as
"always non-empty for aggregate order by targets" (query.rs 180). -/
def deserOrderByElement : Json → Option OrderByElement
  | .obj kvs => do
    let d ← reqField kvs "order_direction" deserOrderDirection
    let t ← reqField kvs "target" deserOrderByTarget
    let p ← reqField kvs "target_path" deserStringList
    pure ⟨d, t, p⟩
  | _ => none

mutual
/-- Deserialize an `Expression` (internally tagged). -/
def deserExpression : Json → Option Expression
  | .obj kvs =>
    match getTag kvs with
    | some "and" =>
      (match deserExprExpressionsGo kvs none with
       | some es => some (.and es)
       | none => none)
    | some "or" =>
      (match deserExprExpressionsGo kvs none with
       | some es => some (.or es)
       | none => none)
    | some "not" => deserExprNotGo kvs none
    | some "unary_op" => do
      let c ← reqField kvs "column" deserComparisonColumn
      let op ← reqField kvs "operator" deserUnaryComparisonOperator
      pure (.applyUnaryComparison c op)
    | some "binary_op" => do
      let c ← reqField kvs "column" deserComparisonColumn
      let op ← reqField kvs "operator" deserBinaryComparisonOperator
      let v ← reqField kvs "value" deserComparisonValue
      pure (.applyBinaryComparison c op v)
    | some "binary_arr_op" => do
      let c ← reqField kvs "column" deserComparisonColumn
      let op ← reqField kvs "operator" deserBinaryArrayComparisonOperator
      let vt ← reqField kvs "value_type" deserString
      let vs ← reqField kvs "values" (deserListWith some)
      pure (.applyBinaryArrayComparison c op vt vs)
    | some "exists" => deserExprExistsGo kvs none none
    | _ => none
  | _ => none

/-- Visitor loop for the required `expressions` member of `And`/`Or`. -/
def deserExprExpressionsGo : List (String × Json) →
    Option (List Expression) → Option (List Expression)
  | [], acc => acc
  | ("expressions", v) :: rest, acc =>
    match acc with
    | some _ => none
    | none =>
      match v with
      | .arr xs =>
        match deserExprList xs with
        | some es => deserExprExpressionsGo rest (some es)
        | none => none
      | _ => none
  | _ :: rest, acc => deserExprExpressionsGo rest acc

/-- Parse an array of expressions. -/
def deserExprList : List Json → Option (List Expression)
  | [] => some []
  | j :: rest =>
    match deserExpression j, deserExprList rest with
    | some e, some tail => some (e :: tail)
    | _, _ => none

/-- Visitor loop for the `Not` variant (required `expression` member). -/
def deserExprNotGo : List (String × Json) → Option Expression →
    Option Expression
  | [], acc =>
    (match acc with
     | some e => some (.not e)
     | none => none)
  | ("expression", v) :: rest, acc =>
    match acc with
    | some _ => none
    | none =>
      match deserExpression v with
      | some e => deserExprNotGo rest (some e)
      | none => none
  | _ :: rest, acc => deserExprNotGo rest acc

/-- Visitor loop for the `Exists` variant (required `in_table` and `where`
members). -/
def deserExprExistsGo : List (String × Json) → Option ExistsInTable →
    Option Expression → Option Expression
  | [], it, w =>
    (match it, w with
     | some it, some w => some (.exists_ it w)
     | _, _ => none)
  | ("in_table", v) :: rest, it, w =>
    (match it, deserExistsInTable v with
     | none, some x => deserExprExistsGo rest (some x) w
     | _, _ => none)
  | ("where", v) :: rest, it, w =>
    match w with
    | some _ => none
    | none =>
      match deserExpression v with
      | some e => deserExprExistsGo rest it (some e)
      | none => none
  | _ :: rest, it, w => deserExprExistsGo rest it w
end

mutual
/-- Deserialize an `OrderByRelation`. -/
def deserOrderByRelation : Json → Option OrderByRelation
  | .obj kvs => deserOrderByRelationGo kvs none none
  | _ => none

/-- Visitor loop for `OrderByRelation`: required `subrelations`, optional
`where`. -/
def deserOrderByRelationGo : List (String × Json) →
    Option (List (String × OrderByRelation)) →
    Option (Option Expression) → Option OrderByRelation
  | [], s, w =>
    (match s with
     | some s => some (.mk s w.join)
     | none => none)
  | ("subrelations", v) :: rest, s, w =>
    match s with
    | some _ => none
    | none =>
      match v with
      | .obj m =>
        match deserOrderByRelationMapEntries m [] with
        | some sm => deserOrderByRelationGo rest (some sm) w
        | none => none
      | _ => none
  | ("where", v) :: rest, s, w =>
    match w with
    | some _ => none
    | none =>
      match v with
      | .null => deserOrderByRelationGo rest s (some none)
      | _ =>
        match deserExpression v with
        | some e => deserOrderByRelationGo rest s (some (some e))
        | none => none
  | _ :: rest, s, w => deserOrderByRelationGo rest s w

/-- Parse a `subrelations` map, inserting entries left to right. -/
def deserOrderByRelationMapEntries : List (String × Json) →
    List (String × OrderByRelation) → Option (List (String × OrderByRelation))
  | [], acc => some acc
  | (k, v) :: rest, acc =>
    match deserOrderByRelation v with
    | some r => deserOrderByRelationMapEntries rest (imInsert acc k r)
    | none => none
end

/-- Visitor loop for `OrderBy`: required `elements` and `relations`. -/
def deserOrderByGo : List (String × Json) →
    Option (List OrderByElement) →
    Option (List (String × OrderByRelation)) → Option OrderBy
  | [], e, r =>
    (match e, r with
     | some e, some r => some ⟨e, r⟩
     | _, _ => none)
  | ("elements", v) :: rest, e, r =>
    (match e, deserListWith deserOrderByElement v with
     | none, some x => deserOrderByGo rest (some x) r
     | _, _ => none)
  | ("relations", v) :: rest, e, r =>
    match r with
    | some _ => none
    | none =>
      match v with
      | .obj m =>
        match deserOrderByRelationMapEntries m [] with
        | some rm => deserOrderByGo rest e (some rm)
        | none => none
      | _ => none
  | _ :: rest, e, r => deserOrderByGo rest e r

/-- Deserialize an `OrderBy`. -/
def deserOrderBy : Json → Option OrderBy
  | .obj kvs => deserOrderByGo kvs none none
  | _ => none

mutual
/-- Deserialize a `Query` from a JSON object. -/
def deserQuery : Json → Option Query
  | .obj kvs => deserQueryGo kvs none none none none none none none
  | _ => none

/-- serde's visitor loop for `Query`: seen-flags for the seven optional
fields, scanned in entry order. -/
def deserQueryGo : List (String × Json) →
    Option (Option (List (String × Aggregate))) →
    Option (Option Nat) →
    Option (Option (List (String × Field))) →
    Option (Option Nat) →
    Option (Option Nat) →
    Option (Option OrderBy) →
    Option (Option Expression) →
    Option Query
  | [], a, al, f, l, o, ob, w =>
    some (.mk a.join al.join f.join l.join o.join ob.join w.join)
  | ("aggregates", v) :: rest, a, al, f, l, o, ob, w =>
    (match a, deserOpt (deserMapWith deserAggregate) v with
     | none, some x => deserQueryGo rest (some x) al f l o ob w
     | _, _ => none)
  | ("aggregates_limit", v) :: rest, a, al, f, l, o, ob, w =>
    (match al, deserOpt deserU64 v with
     | none, some x => deserQueryGo rest a (some x) f l o ob w
     | _, _ => none)
  | ("fields", v) :: rest, a, al, f, l, o, ob, w =>
    match f with
    | some _ => none
    | none =>
      match v with
      | .null => deserQueryGo rest a al (some none) l o ob w
      | .obj m =>
        match deserFieldMapEntries m [] with
        | some fm => deserQueryGo rest a al (some (some fm)) l o ob w
        | none => none
      | _ => none
  | ("limit", v) :: rest, a, al, f, l, o, ob, w =>
    (match l, deserOpt deserU64 v with
     | none, some x => deserQueryGo rest a al f (some x) o ob w
     | _, _ => none)
  | ("offset", v) :: rest, a, al, f, l, o, ob, w =>
    (match o, deserOpt deserU64 v with
     | none, some x => deserQueryGo rest a al f l (some x) ob w
     | _, _ => none)
  | ("order_by", v) :: rest, a, al, f, l, o, ob, w =>
    (match ob, deserOpt deserOrderBy v with
     | none, some x => deserQueryGo rest a al f l o (some x) w
     | _, _ => none)
  | ("where", v) :: rest, a, al, f, l, o, ob, w =>
    (match w, deserOpt deserExpression v with
     | none, some x => deserQueryGo rest a al f l o ob (some x)
     | _, _ => none)
  | _ :: rest, a, al, f, l, o, ob, w => deserQueryGo rest a al f l o ob w

/-- Parse a `fields` map, inserting entries left to right. -/
def deserFieldMapEntries : List (String × Json) → List (String × Field) →
    Option (List (String × Field))
  | [], acc => some acc
  | (k, v) :: rest, acc =>
    match deserField v with
    | some fl => deserFieldMapEntries rest (imInsert acc k fl)
    | none => none

/-- Deserialize a `Field` (internally tagged). -/
def deserField : Json → Option Field
  | .obj kvs =>
    match getTag kvs with
    | some "column" => do
      let c ← reqField kvs "column" deserString
      let t ← reqField kvs "column_type" deserString
      pure (.column c t)
    | some "object" => deserFieldObjectGo kvs none none
    | some "array" => deserFieldArrayGo kvs none none none none
    | some "relationship" => deserFieldRelationshipGo kvs none none
    | _ => none
  | _ => none

/-- Visitor loop for the `Object` field variant (required `column` and
`query`). -/
def deserFieldObjectGo : List (String × Json) → Option String →
    Option Query → Option Field
  | [], c, q =>
    (match c, q with
     | some c, some q => some (.object c q)
     | _, _ => none)
  | ("column", v) :: rest, c, q =>
    (match c, deserString v with
     | none, some s => deserFieldObjectGo rest (some s) q
     | _, _ => none)
  | ("query", v) :: rest, c, q =>
    match q with
    | some _ => none
    | none =>
      match deserQuery v with
      | some qq => deserFieldObjectGo rest c (some qq)
      | none => none
  | _ :: rest, c, q => deserFieldObjectGo rest c q

/-- Visitor loop for the `Array` field variant (required `field`, optional
`limit`/`offset`/`where`; the limits are `i64`). -/
def deserFieldArrayGo : List (String × Json) → Option Field →
    Option (Option Int) → Option (Option Int) → Option (Option OrderBy) →
    Option Field
  | [], fl, li, o, w =>
    (match fl with
     | some fl => some (.array fl li.join o.join w.join)
     | none => none)
  | ("field", v) :: rest, fl, li, o, w =>
    match fl with
    | some _ => none
    | none =>
      match deserField v with
      | some x => deserFieldArrayGo rest (some x) li o w
      | none => none
  | ("limit", v) :: rest, fl, li, o, w =>
    (match li, deserOpt deserI64 v with
     | none, some x => deserFieldArrayGo rest fl (some x) o w
     | _, _ => none)
  | ("offset", v) :: rest, fl, li, o, w =>
    (match o, deserOpt deserI64 v with
     | none, some x => deserFieldArrayGo rest fl li (some x) w
     | _, _ => none)
  | ("where", v) :: rest, fl, li, o, w =>
    (match w, deserOpt deserOrderBy v with
     | none, some x => deserFieldArrayGo rest fl li o (some x)
     | _, _ => none)
  | _ :: rest, fl, li, o, w => deserFieldArrayGo rest fl li o w

/-- Visitor loop for the `Relationship` field variant (required `query` and
`relationship`). -/
def deserFieldRelationshipGo : List (String × Json) → Option Query →
    Option String → Option Field
  | [], q, r =>
    (match q, r with
     | some q, some r => some (.relationship q r)
     | _, _ => none)
  | ("query", v) :: rest, q, r =>
    match q with
    | some _ => none
    | none =>
      match deserQuery v with
      | some qq => deserFieldRelationshipGo rest (some qq) r
      | none => none
  | ("relationship", v) :: rest, q, r =>
    (match r, deserString v with
     | none, some s => deserFieldRelationshipGo rest q (some s)
     | _, _ => none)
  | _ :: rest, q, r => deserFieldRelationshipGo rest q r
end

/-- Deserialize a `QueryRequest`. -/
def deserQueryRequest : Json → Option QueryRequest
  | .obj kvs => do
    let fe ← optField kvs "foreach"
      (deserListWith (deserMapWith deserScalarValue))
    let iq ← optField kvs "interpolated_queries"
      (deserMapWith deserInterpolatedQuery)
    let q ← reqField kvs "query" deserQuery
    let t ← reqField kvs "target" deserTarget
    let rels ← reqField kvs "relationships" (deserListWith deserTableRelationships)
    pure ⟨fe, iq, q, t, rels⟩
  | _ => none

/-! ## Schema model (`src/schema.rs`) -/

mutual
/-- `ColumnType` (schema.rs 117–122): untagged, non-scalar variant declared
first. -/
inductive ColumnType where
  | columnTypeNonScalar (v : ColumnTypeNonScalar)
  | scalar (s : String)

/-- `ColumnTypeNonScalar` (schema.rs 124–134). -/
inductive ColumnTypeNonScalar where
  | object (name : String)
  | array (element_type : ColumnType) (nullable : Bool)
end

/-- `ColumnValueGenerationStrategy` (schema.rs 136–142). -/
inductive ColumnValueGenerationStrategy where
  | autoIncrement
  | defaultValue
  | uniqueIdentifier

/-- `DetailLevel` (schema.rs 15–20). -/
inductive DetailLevel where
  | everything
  | basicInfo

/-- `SchemaFilters` (schema.rs 22–29). -/
structure SchemaFilters where
  only_functions : Option (List (List String))
  only_tables : Option (List (List String))

/-- `SchemaRequest` (schema.rs 7–13). -/
structure SchemaRequest where
  detail_level : Option DetailLevel
  filters : Option SchemaFilters

/-- `FunctionResponseCardinality` (schema.rs 67–72). -/
inductive FunctionResponseCardinality where
  | one
  | many

/-- `FunctionType` (schema.rs 74–79). -/
inductive FunctionType where
  | read
  | write

/-- `FunctionReturnType` (schema.rs 81–86). -/
inductive FunctionReturnType where
  | table (table : List String)
  | unknown

/-- `FunctionInformationArgument` (schema.rs 56–65). -/
structure FunctionInformationArgument where
  name : String
  optional : Option Bool
  type_ : String

/-- `FunctionInfo` (schema.rs 42–54). -/
structure FunctionInfo where
  args : Option (List FunctionInformationArgument)
  description : Option String
  name : List String
  response_cardinality : Option FunctionResponseCardinality
  returns : Option FunctionReturnType
  type_ : FunctionType

/-- `ColumnInfo` (schema.rs 99–115). -/
structure ColumnInfo where
  description : Option String
  insertable : Option Bool
  name : String
  nullable : Bool
  type_ : ColumnType
  updatable : Option Bool
  value_generated : Option ColumnValueGenerationStrategy

/-- `ObjectTypeDefinition` (schema.rs 88–97). -/
structure ObjectTypeDefinition where
  columns : List ColumnInfo
  description : Option String
  name : String

/-- `Constraint` (schema.rs 167–173). -/
structure Constraint where
  column_mapping : List (String × String)
  foreign_table : List String

/-- `TableType` (schema.rs 175–179). -/
inductive TableType where
  | table
  | view

/-- `TableInfo` (schema.rs 144–165). -/
structure TableInfo where
  columns : Option (List ColumnInfo)
  deletable : Option Bool
  description : Option String
  foreign_keys : Option (List (String × Constraint))
  insertable : Option Bool
  name : List String
  primary_key : Option (List String)
  type_ : Option TableType
  updatable : Option Bool

/-- `SchemaResponse` (schema.rs 31–40). -/
structure SchemaResponse where
  object_types : Option (List ObjectTypeDefinition)
  tables : List TableInfo
  functions : Option (List FunctionInfo)

mutual
/-- Serialize a `ColumnType` (untagged: payload emitted directly, `Scalar`
as a bare string). -/
def serColumnType : ColumnType → Json
  | .columnTypeNonScalar v => serColumnTypeNonScalar v
  | .scalar s => .str s

/-- Serialize a `ColumnTypeNonScalar`. -/
def serColumnTypeNonScalar : ColumnTypeNonScalar → Json
  | .object name => .obj [("type", .str "object"), ("name", .str name)]
  | .array et nl =>
    .obj [("type", .str "array"), ("element_type", serColumnType et),
          ("nullable", .bool nl)]
end

/-- Serialize a `ColumnValueGenerationStrategy` (internally tagged empty
struct variants). -/
def serColumnValueGenerationStrategy : ColumnValueGenerationStrategy → Json
  | .autoIncrement => .obj [("type", .str "auto_increment")]
  | .defaultValue => .obj [("type", .str "default_value")]
  | .uniqueIdentifier => .obj [("type", .str "unique_identifier")]

/-- Serialize a `DetailLevel`. -/
def serDetailLevel : DetailLevel → Json
  | .everything => .str "everything"
  | .basicInfo => .str "basic_info"

/-- Serialize a `SchemaFilters`. -/
def serSchemaFilters (f : SchemaFilters) : Json :=
  mkObj [("only_functions",
           f.only_functions.map (fun ns => .arr (ns.map (fun n => .arr (n.map .str))))),
         ("only_tables",
           f.only_tables.map (fun ns => .arr (ns.map (fun n => .arr (n.map .str)))))]

/-- Serialize a `SchemaRequest`. -/
def serSchemaRequest (r : SchemaRequest) : Json :=
  mkObj [("detail_level", r.detail_level.map serDetailLevel),
         ("filters", r.filters.map serSchemaFilters)]

/-- Serialize a `FunctionResponseCardinality`. -/
def serFunctionResponseCardinality : FunctionResponseCardinality → Json
  | .one => .str "one"
  | .many => .str "many"

/-- Serialize a `FunctionType`. -/
def serFunctionType : FunctionType → Json
  | .read => .str "read"
  | .write => .str "write"

/-- Serialize a `FunctionReturnType`. -/
def serFunctionReturnType : FunctionReturnType → Json
  | .table t => .obj [("type", .str "table"), ("table", .arr (t.map .str))]
  | .unknown => .obj [("type", .str "unknown")]

/-- Serialize a `FunctionInformationArgument` (`type` rename). -/
def serFunctionInformationArgument (a : FunctionInformationArgument) : Json :=
  mkObj [("name", some (.str a.name)),
         ("optional", a.optional.map .bool),
         ("type", some (.str a.type_))]

/-- Serialize a `FunctionInfo`. -/
def serFunctionInfo (fi : FunctionInfo) : Json :=
  mkObj [("args",
           fi.args.map (fun xs => .arr (xs.map serFunctionInformationArgument))),
         ("description", fi.description.map .str),
         ("name", some (.arr (fi.name.map .str))),
         ("response_cardinality",
           fi.response_cardinality.map serFunctionResponseCardinality),
         ("returns", fi.returns.map serFunctionReturnType),
         ("type", some (serFunctionType fi.type_))]

/-- Serialize a `ColumnInfo`. -/
def serColumnInfo (c : ColumnInfo) : Json :=
  mkObj [("description", c.description.map .str),
         ("insertable", c.insertable.map .bool),
         ("name", some (.str c.name)),
         ("nullable", some (.bool c.nullable)),
         ("type", some (serColumnType c.type_)),
         ("updatable", c.updatable.map .bool),
         ("value_generated",
           c.value_generated.map serColumnValueGenerationStrategy)]

/-- Serialize an `ObjectTypeDefinition`. -/
def serObjectTypeDefinition (o : ObjectTypeDefinition) : Json :=
  mkObj [("columns", some (.arr (o.columns.map serColumnInfo))),
         ("description", o.description.map .str),
         ("name", some (.str o.name))]

/-- Serialize a `Constraint`. -/
def serConstraint (c : Constraint) : Json :=
  .obj [("column_mapping", .obj (c.column_mapping.map (fun p => (p.1, .str p.2)))),
        ("foreign_table", .arr (c.foreign_table.map .str))]

/-- Serialize a `TableType`. -/
def serTableType : TableType → Json
  | .table => .str "table"
  | .view => .str "view"

/-- Serialize a `TableInfo`. -/
def serTableInfo (t : TableInfo) : Json :=
  mkObj [("columns", t.columns.map (fun cs => .arr (cs.map serColumnInfo))),
         ("deletable", t.deletable.map .bool),
         ("description", t.description.map .str),
         ("foreign_keys",
           t.foreign_keys.map (fun fk => Json.obj (fk.map (fun p => (p.1, serConstraint p.2))))),
         ("insertable", t.insertable.map .bool),
         ("name", some (.arr (t.name.map .str))),
         ("primary_key", t.primary_key.map (fun pk => .arr (pk.map .str))),
         ("type", t.type_.map serTableType),
         ("updatable", t.updatable.map .bool)]

/-- Serialize a `SchemaResponse`. -/
def serSchemaResponse (r : SchemaResponse) : Json :=
  mkObj [("object_types",
           r.object_types.map (fun os => .arr (os.map serObjectTypeDefinition))),
         ("tables", some (.arr (r.tables.map serTableInfo))),
         ("functions", r.functions.map (fun fs => .arr (fs.map serFunctionInfo)))]

/-! ## Mutation model (`src/mutation.rs`) -/

/-- `ObjectRelationInsertionOrder` (mutation.rs 56–61). -/
inductive ObjectRelationInsertionOrder where
  | beforeParent
  | afterParent

/-- `InsertFieldSchema` (mutation.rs 33–54). -/
inductive InsertFieldSchema where
  | arrayRelation (relationship : String)
  | column (column : String) (column_type : ColumnType) (nullable : Bool)
      (value_generated : Option ColumnValueGenerationStrategy)
  | objectRelation (insertion_order : ObjectRelationInsertionOrder)
      (relationship : String)

/-- `TableInsertSchema` (mutation.rs 22–31). -/
structure TableInsertSchema where
  fields : List (String × InsertFieldSchema)
  primary_key : Option (List String)
  table : List String

/-- `RowUpdate` (mutation.rs 97–115): `Set.value` is an
`IndexMap<String, serde_json::Value>` while `CustomOperator.value` is a bare
`serde_json::Value`. -/
inductive RowUpdate where
  | customOperator (column : String) (operator_name : String) (value : Json)
      (value_type : String)
  | set (column : String) (value : List (String × Json)) (value_type : String)

/-- `MutationOperation` (mutation.rs 63–95). -/
inductive MutationOperation where
  | delete (returning_fields : Option (List (String × Field)))
      (table : List String) (where_ : Option Expression)
  | insert (post_insert_check : Option Expression)
      (returning_fields : Option (List (String × Field)))
      (rows : List (List (String × Json))) (table : List String)
  | update (post_update_check : Option Expression)
      (returning_fields : Option (List (String × Field)))
      (table : List String) (updates : List RowUpdate)
      (where_ : Option Expression)

/-- `MutationRequest` (mutation.rs 12–20). -/
structure MutationRequest where
  insert_schema : List TableInsertSchema
  operations : List MutationOperation
  relationships : List TableRelationships

/-- `MutationOperationResults` (mutation.rs 123–130). -/
structure MutationOperationResults where
  affected_rows : Nat
  returning : Option (List (List (String × ResponseFieldValue)))

/-- `MutationResponse` (mutation.rs 117–121). -/
structure MutationResponse where
  operation_results : List MutationOperationResults

/-- Serialize an `ObjectRelationInsertionOrder`. -/
def serObjectRelationInsertionOrder : ObjectRelationInsertionOrder → Json
  | .beforeParent => .str "before_parent"
  | .afterParent => .str "after_parent"

/-- Serialize an `InsertFieldSchema`. -/
def serInsertFieldSchema : InsertFieldSchema → Json
  | .arrayRelation r =>
    .obj [("type", .str "array_relation"), ("relationship", .str r)]
  | .column c ct nl vg =>
    mkObj [("type", some (.str "column")),
           ("column", some (.str c)),
           ("column_type", some (serColumnType ct)),
           ("nullable", some (.bool nl)),
           ("value_generated", vg.map serColumnValueGenerationStrategy)]
  | .objectRelation io r =>
    .obj [("type", .str "object_relation"),
          ("insertion_order", serObjectRelationInsertionOrder io),
          ("relationship", .str r)]

/-- Serialize a `TableInsertSchema`. -/
def serTableInsertSchema (s : TableInsertSchema) : Json :=
  mkObj [("fields",
           some (Json.obj (s.fields.map (fun p => (p.1, serInsertFieldSchema p.2))))),
         ("primary_key", s.primary_key.map (fun pk => .arr (pk.map .str))),
         ("table", some (.arr (s.table.map .str)))]

/-- Serialize a `RowUpdate`. -/
def serRowUpdate : RowUpdate → Json
  | .customOperator c opn v t =>
    .obj [("type", .str "custom_operator"), ("column", .str c),
          ("operator_name", .str opn), ("value", v), ("value_type", .str t)]
  | .set c v t =>
    .obj [("type", .str "set"), ("column", .str c), ("value", .obj v),
          ("value_type", .str t)]

/-- Serialize a `MutationOperation`. -/
def serMutationOperation : MutationOperation → Json
  | .delete rf t w =>
    mkObj [("type", some (.str "delete")),
           ("returning_fields",
             rf.map (fun m => Json.obj (serFieldEntries m))),
           ("table", some (.arr (t.map .str))),
           ("where", w.map serExpression)]
  | .insert pic rf rows t =>
    mkObj [("type", some (.str "insert")),
           ("post_insert_check", pic.map serExpression),
           ("returning_fields",
             rf.map (fun m => Json.obj (serFieldEntries m))),
           ("rows", some (.arr (rows.map Json.obj))),
           ("table", some (.arr (t.map .str)))]
  | .update puc rf t ups w =>
    mkObj [("type", some (.str "update")),
           ("post_update_check", puc.map serExpression),
           ("returning_fields",
             rf.map (fun m => Json.obj (serFieldEntries m))),
           ("table", some (.arr (t.map .str))),
           ("updates", some (.arr (ups.map serRowUpdate))),
           ("where", w.map serExpression)]

/-- Serialize a `MutationRequest`. -/
def serMutationRequest (r : MutationRequest) : Json :=
  .obj [("insert_schema", .arr (r.insert_schema.map serTableInsertSchema)),
        ("operations", .arr (r.operations.map serMutationOperation)),
        ("relationships", .arr (r.relationships.map serTableRelationships))]

/-- Serialize a `MutationOperationResults`. -/
def serMutationOperationResults (r : MutationOperationResults) : Json :=
  mkObj [("affected_rows", some (.num (Int.ofNat r.affected_rows))),
         ("returning",
           r.returning.map (fun rs =>
             .arr (rs.map (fun row => Json.obj (serResponseCells row)))))]

/-- Serialize a `MutationResponse`. -/
def serMutationResponse (r : MutationResponse) : Json :=
  .obj [("operation_results",
          .arr (r.operation_results.map serMutationOperationResults))]

/-- Deserialize a `RowUpdate`: the `set` variant's `value` must be a JSON
object (an `IndexMap`), the `custom_operator` variant's `value` is any JSON
value. -/
def deserRowUpdate : Json → Option RowUpdate
  | .obj kvs =>
    match getTag kvs with
    | some "custom_operator" => do
      let c ← reqField kvs "column" deserString
      let opn ← reqField kvs "operator_name" deserString
      let v ← reqField kvs "value" some
      let t ← reqField kvs "value_type" deserString
      pure (.customOperator c opn v t)
    | some "set" => do
      let c ← reqField kvs "column" deserString
      let v ← reqField kvs "value" (deserMapWith some)
      let t ← reqField kvs "value_type" deserString
      pure (.set c v t)
    | _ => none
  | _ => none

/-! ## `ErrorResponseType` (`src/error.rs`, lines 16–22) -/

/-- `ErrorResponseType`: a closed unit-variant enum with
`rename_all = "kebab-case"`. -/
inductive ErrorResponseType where
  | uncaughtError
  | mutationConstraintViolation
  | mutationPermissionCheckFailure

/-- Serialize an `ErrorResponseType` to its kebab-case name. -/
def serErrorResponseType : ErrorResponseType → Json
  | .uncaughtError => .str "uncaught-error"
  | .mutationConstraintViolation => .str "mutation-constraint-violation"
  | .mutationPermissionCheckFailure => .str "mutation-permission-check-failure"

/-- Deserialize an `ErrorResponseType`: only the three declared names are
accepted (there is no fallback variant). -/
def deserErrorResponseType : Json → Option ErrorResponseType
  | .str s =>
    if s = "uncaught-error" then some .uncaughtError
    else if s = "mutation-constraint-violation" then
      some .mutationConstraintViolation
    else if s = "mutation-permission-check-failure" then
      some .mutationPermissionCheckFailure
    else none
  | _ => none

/-! ## Error model (`src/error.rs`, lines 5–14) -/

/-- `ErrorResponse` (error.rs 5–14): optional `details`, required `message`,
optional `type` tag. -/
structure ErrorResponse where
  details : Option (List (String × Json))
  message : String
  type_ : Option ErrorResponseType

/-- Serialize an `ErrorResponse`. -/
def serErrorResponse (e : ErrorResponse) : Json :=
  mkObj [("details", e.details.map Json.obj),
         ("message", some (.str e.message)),
         ("type", e.type_.map serErrorResponseType)]

/-! ## Capabilities model (`src/capabilities.rs`) -/

/-- `openapiv3::Schema`, an external crate type: modelled as an opaque JSON
payload that serializes to itself. -/
def OpenApiSchema : Type := Json

/-- Serialize an `OpenApiSchema` (identity in this model). -/
def serOpenApiSchema (s : OpenApiSchema) : Json := s

/-- `ConfigSchemaResponse` (capabilities.rs 26–30). -/
structure ConfigSchemaResponse where
  config_schema : OpenApiSchema
  other_schemas : List (String × OpenApiSchema)

/-- Serialize a `ConfigSchemaResponse`. -/
def serConfigSchemaResponse (r : ConfigSchemaResponse) : Json :=
  .obj [("config_schema", serOpenApiSchema r.config_schema),
        ("other_schemas",
          .obj (r.other_schemas.map (fun p => (p.1, serOpenApiSchema p.2))))]

/-- `SubqueryComparisonCapabilities` (capabilities.rs 59–64). -/
structure SubqueryComparisonCapabilities where
  supports_relations : Option Bool

/-- Serialize a `SubqueryComparisonCapabilities`. -/
def serSubqueryComparisonCapabilities (c : SubqueryComparisonCapabilities) :
    Json :=
  mkObj [("supports_relations", c.supports_relations.map .bool)]

/-- `ComparisonCapabilities` (capabilities.rs 53–57). -/
structure ComparisonCapabilities where
  subquery : Option SubqueryComparisonCapabilities

/-- Serialize a `ComparisonCapabilities`. -/
def serComparisonCapabilities (c : ComparisonCapabilities) : Json :=
  mkObj [("subquery", c.subquery.map serSubqueryComparisonCapabilities)]

/-- `ColumnNullability` (capabilities.rs 77–82). -/
inductive ColumnNullability where
  | onlyNullable
  | nullableAndNonNullable

/-- Serialize a `ColumnNullability`. -/
def serColumnNullability : ColumnNullability → Json
  | .onlyNullable => .str "only_nullable"
  | .nullableAndNonNullable => .str "nullable_and_non_nullable"

/-- `DataSchemaCapabilities` (capabilities.rs 66–75). -/
structure DataSchemaCapabilities where
  column_nullability : Option ColumnNullability
  supports_foreign_keys : Option Bool
  supports_primary_keys : Option Bool
  supports_schemaless_tables : Option Bool

/-- Serialize a `DataSchemaCapabilities`. -/
def serDataSchemaCapabilities (c : DataSchemaCapabilities) : Json :=
  mkObj [("column_nullability", c.column_nullability.map serColumnNullability),
         ("supports_foreign_keys", c.supports_foreign_keys.map .bool),
         ("supports_primary_keys", c.supports_primary_keys.map .bool),
         ("supports_schemaless_tables", c.supports_schemaless_tables.map .bool)]

/-- `AtomicitySupportLevel` (capabilities.rs 94–101). -/
inductive AtomicitySupportLevel where
  | row
  | singleOperation
  | homogeneousOperations
  | heterogeneousOperations

/-- Serialize an `AtomicitySupportLevel`. -/
def serAtomicitySupportLevel : AtomicitySupportLevel → Json
  | .row => .str "row"
  | .singleOperation => .str "single_operation"
  | .homogeneousOperations => .str "homogeneous_operations"
  | .heterogeneousOperations => .str "heterogeneous_operations"

/-- `InsertCapabilities` (capabilities.rs 103–108). -/
structure InsertCapabilities where
  supports_nested_inserts : Option Bool

/-- Serialize an `InsertCapabilities`. -/
def serInsertCapabilities (c : InsertCapabilities) : Json :=
  mkObj [("supports_nested_inserts", c.supports_nested_inserts.map .bool)]

/-- `MutationCapabilities` (capabilities.rs 84–92). -/
structure MutationCapabilities where
  atomicity_support_level : Option AtomicitySupportLevel
  delete : Option Json
  insert : Option InsertCapabilities
  returning : Option Json
  update : Option Json

/-- Serialize a `MutationCapabilities`. -/
def serMutationCapabilities (c : MutationCapabilities) : Json :=
  mkObj [("atomicity_support_level",
           c.atomicity_support_level.map serAtomicitySupportLevel),
         ("delete", c.delete),
         ("insert", c.insert.map serInsertCapabilities),
         ("returning", c.returning),
         ("update", c.update)]

/-- `QueryCapabilities` (capabilities.rs 110–114). -/
structure QueryCapabilities where
  foreach : Option Json

/-- Serialize a `QueryCapabilities`. -/
def serQueryCapabilities (c : QueryCapabilities) : Json :=
  mkObj [("foreach", c.foreach)]

/-- `GraphQlType` (capabilities.rs 129–137): no `rename_all`, so variant
names serialize as written (`Id` renames to `ID`). -/
inductive GraphQlType where
  | int
  | float
  | string
  | boolean
  | id

/-- Serialize a `GraphQlType`. -/
def serGraphQlType : GraphQlType → Json
  | .int => .str "Int"
  | .float => .str "Float"
  | .string => .str "String"
  | .boolean => .str "Boolean"
  | .id => .str "ID"

/-- `UpdateColumnOperatorDefinition` (capabilities.rs 139–142). -/
structure UpdateColumnOperatorDefinition where
  argument_type : String

/-- Serialize an `UpdateColumnOperatorDefinition`. -/
def serUpdateColumnOperatorDefinition (d : UpdateColumnOperatorDefinition) :
    Json :=
  .obj [("argument_type", .str d.argument_type)]

/-- `ScalarTypeCapabilities` (capabilities.rs 116–127). -/
structure ScalarTypeCapabilities where
  aggregate_functions : Option (List (String × String))
  comparison_operators : Option (List (String × String))
  graphql_type : Option GraphQlType
  update_column_operators : Option (List (String × UpdateColumnOperatorDefinition))

/-- Serialize a `ScalarTypeCapabilities`. -/
def serScalarTypeCapabilities (c : ScalarTypeCapabilities) : Json :=
  mkObj [("aggregate_functions",
           c.aggregate_functions.map (fun m =>
             Json.obj (m.map (fun p => (p.1, .str p.2))))),
         ("comparison_operators",
           c.comparison_operators.map (fun m =>
             Json.obj (m.map (fun p => (p.1, .str p.2))))),
         ("graphql_type", c.graphql_type.map serGraphQlType),
         ("update_column_operators",
           c.update_column_operators.map (fun m =>
             Json.obj (m.map (fun p => (p.1, serUpdateColumnOperatorDefinition p.2)))))]

/-- `Capabilities` (capabilities.rs 32–51). -/
structure Capabilities where
  comparisons : Option ComparisonCapabilities
  data_schema : Option DataSchemaCapabilities
  datasets : Option Json
  explain : Option Json
  interpolated_queries : Option Json
  licensing : Option Json
  metrics : Option Json
  mutations : Option MutationCapabilities
  queries : Option QueryCapabilities
  raw : Option Json
  relationships : Option Json
  scalar_types : Option (List (String × ScalarTypeCapabilities))
  subscriptions : Option Json
  user_defined_functions : Option Json
  post_schema_capabilities : Option Json

/-- Serialize a `Capabilities`. -/
def serCapabilities (c : Capabilities) : Json :=
  mkObj [("comparisons", c.comparisons.map serComparisonCapabilities),
         ("data_schema", c.data_schema.map serDataSchemaCapabilities),
         ("datasets", c.datasets),
         ("explain", c.explain),
         ("interpolated_queries", c.interpolated_queries),
         ("licensing", c.licensing),
         ("metrics", c.metrics),
         ("mutations", c.mutations.map serMutationCapabilities),
         ("queries", c.queries.map serQueryCapabilities),
         ("raw", c.raw),
         ("relationships", c.relationships),
         ("scalar_types",
           c.scalar_types.map (fun m =>
             Json.obj (m.map (fun p => (p.1, serScalarTypeCapabilities p.2))))),
         ("subscriptions", c.subscriptions),
         ("user_defined_functions", c.user_defined_functions),
         ("post_schema_capabilities", c.post_schema_capabilities)]

/-- `CapabilitiesResponse` (capabilities.rs 17–24). -/
structure CapabilitiesResponse where
  capabilities : Capabilities
  config_schemas : ConfigSchemaResponse
  display_name : Option String
  release_name : Option String

/-- Serialize a `CapabilitiesResponse`. -/
def serCapabilitiesResponse (r : CapabilitiesResponse) : Json :=
  mkObj [("capabilities", some (serCapabilities r.capabilities)),
         ("config_schemas", some (serConfigSchemaResponse r.config_schemas)),
         ("display_name", r.display_name.map .str),
         ("release_name", r.release_name.map .str)]

/-! ## Representation invariants and round-trip well-formedness -/

/-- Distinctness of association-list keys: the `IndexMap` representation
invariant (every map arriving from Rust satisfies it). -/
def nodupKeys (m : List (String × α)) : Prop := (m.map Prod.fst).Nodup

instance (m : List (String × α)) : Decidable (nodupKeys m) := by
  unfold nodupKeys; infer_instance

mutual
/-- A `ResponseRow` is round-trip well formed when its maps satisfy the
`IndexMap` key-distinctness invariant and all nested field values are. -/
def wfResponseRow : ResponseRow → Bool
  | .mk agg rows =>
    (match agg with
     | none => true
     | some m => decide (nodupKeys m)) &&
    (match rows with
     | none => true
     | some rs => wfResponseRows rs)

/-- Well-formedness of a `rows` vector. -/
def wfResponseRows : List (List (String × ResponseFieldValue)) → Bool
  | [] => true
  | r :: rest => decide (nodupKeys r) && wfResponseCells r && wfResponseRows rest

/-- Well-formedness of one row's cells. -/
def wfResponseCells : List (String × ResponseFieldValue) → Bool
  | [] => true
  | (_, v) :: rest => wfResponseFieldValue v && wfResponseCells rest

/-- A `ResponseFieldValue` is round-trip well formed when no `Column` payload
is row-shaped — a JSON object, or a two-element array accepted by serde's
positional struct-from-seq path: such a column is re-parsed as the untagged
`Relationship` variant. -/
def wfResponseFieldValue : ResponseFieldValue → Bool
  | .relationship r => wfResponseRow r
  | .column j => !(isRowShaped j)
end

/-- Round-trip well-formedness of a `foreach` response's rows. -/
def wfForEachRows : List ForEachRow → Bool
  | [] => true
  | fr :: rest => wfResponseRow fr.query && wfForEachRows rest



/-! ## Round-trip lemmas for the response model -/

theorem any_key_eq_false_iff (m : List (String × α)) (k : String) :
    m.any (fun p => p.1 = k) = false ↔ k ∉ m.map Prod.fst := by
  induction m with
  | nil => simp
  | cons p rest ih =>
    simp only [List.any_cons, Bool.or_eq_false_iff, List.map_cons,
      List.mem_cons, ih, decide_eq_false_iff_not]
    constructor
    · rintro ⟨h1, h2⟩ (h | h)
      · exact h1 h.symm
      · exact h2 h
    · intro h
      exact ⟨fun e => h (Or.inl e.symm), fun e => h (Or.inr e)⟩

theorem imInsert_fresh (m : List (String × α)) (k : String) (v : α)
    (h : k ∉ m.map Prod.fst) : imInsert m k v = m ++ [(k, v)] := by
  unfold imInsert
  rw [(any_key_eq_false_iff m k).mpr h]
  simp

theorem imFromEntries_go (l acc : List (String × α))
    (h : nodupKeys (acc ++ l)) :
    l.foldl (fun m p => imInsert m p.1 p.2) acc = acc ++ l := by
  induction l generalizing acc with
  | nil => simp
  | cons p rest ih =>
    obtain ⟨k, v⟩ := p
    have hmaps : ((acc ++ (k, v) :: rest).map Prod.fst) =
        acc.map Prod.fst ++ k :: rest.map Prod.fst := by simp
    have hnd : (acc.map Prod.fst ++ k :: rest.map Prod.fst).Nodup := by
      rw [← hmaps]; exact h
    have hk : k ∉ acc.map Prod.fst := by
      intro hmem
      rcases List.nodup_append.mp hnd with ⟨_, _, hdisj⟩
      exact hdisj hmem (by simp)
    have step : imInsert acc k v = acc ++ [(k, v)] := imInsert_fresh acc k v hk
    simp only [List.foldl_cons, step]
    have h' : nodupKeys ((acc ++ [(k, v)]) ++ rest) := by
      unfold nodupKeys at h ⊢
      simpa using h
    have := ih (acc ++ [(k, v)]) h'
    simpa using this

theorem imFromEntries_of_nodup (l : List (String × α)) (h : nodupKeys l) :
    imFromEntries l = l := by
  have := imFromEntries_go l [] (by simpa using h)
  simpa [imFromEntries] using this

theorem deserResponseRow_of_not_rowShaped (j : Json)
    (h : isRowShaped j = false) : deserResponseRow j = none := by
  cases j with
  | arr xs =>
    match xs with
    | [] => rfl
    | [_] => rfl
    | [_, _] => simp [isRowShaped] at h
    | _ :: _ :: _ :: _ => rfl
  | null => rfl
  | bool _ => rfl
  | num _ => rfl
  | str _ => rfl
  | obj _ => simp [isRowShaped] at h

mutual
theorem roundResponseRow (r : ResponseRow) (h : wfResponseRow r = true) :
    deserResponseRow (serResponseRow r) = some r := by
  obtain ⟨agg, rows⟩ := r
  cases agg with
  | none =>
    cases rows with
    | none => rfl
    | some rs =>
      have hrs : wfResponseRows rs = true := by
        simpa [wfResponseRow] using h
      have hstep :
          deserResponseRow (serResponseRow (.mk none (some rs))) =
            (match deserResponseRowsArr (serResponseRows rs) with
             | some rs' => some (ResponseRow.mk none (some rs'))
             | none => none) := rfl
      rw [hstep, roundResponseRows rs hrs]
  | some m =>
    cases rows with
    | none =>
      have hm : nodupKeys m := by
        simpa [wfResponseRow] using h
      have hstep :
          deserResponseRow (serResponseRow (.mk (some m) none)) =
            some (ResponseRow.mk (some (imFromEntries m)) none) := rfl
      rw [hstep, imFromEntries_of_nodup m hm]
    | some rs =>
      have hm : nodupKeys m ∧ wfResponseRows rs = true := by
        simpa [wfResponseRow, Bool.and_eq_true] using h
      have hstep :
          deserResponseRow (serResponseRow (.mk (some m) (some rs))) =
            (match deserResponseRowsArr (serResponseRows rs) with
             | some rs' =>
                 some (ResponseRow.mk (some (imFromEntries m)) (some rs'))
             | none => none) := rfl
      rw [hstep, roundResponseRows rs hm.2, imFromEntries_of_nodup m hm.1]

theorem roundResponseRows (rs : List (List (String × ResponseFieldValue)))
    (h : wfResponseRows rs = true) :
    deserResponseRowsArr (serResponseRows rs) = some rs := by
  match rs with
  | [] => simp [serResponseRows, deserResponseRowsArr]
  | r :: rest =>
    have hparts : nodupKeys r ∧ wfResponseCells r = true ∧
        wfResponseRows rest = true := by
      simpa [wfResponseRows, Bool.and_eq_true, and_assoc] using h
    have hcells := roundResponseCells r [] hparts.2.1 (by simpa using hparts.1)
    simp [serResponseRows, deserResponseRowsArr, hcells,
      roundResponseRows rest hparts.2.2]

theorem roundResponseCells (cells : List (String × ResponseFieldValue))
    (acc : List (String × ResponseFieldValue))
    (hwf : wfResponseCells cells = true) (hnd : nodupKeys (acc ++ cells)) :
    deserResponseCellEntries (serResponseCells cells) acc =
      some (acc ++ cells) := by
  match cells with
  | [] => simp [serResponseCells, deserResponseCellEntries]
  | (k, v) :: rest =>
    have hparts : wfResponseFieldValue v = true ∧ wfResponseCells rest = true := by
      simpa [wfResponseCells, Bool.and_eq_true] using hwf
    have hk : k ∉ acc.map Prod.fst := by
      have hnd' : (acc.map Prod.fst ++ k :: rest.map Prod.fst).Nodup := by
        have := hnd
        unfold nodupKeys at this
        simpa using this
      intro hmem
      rcases List.nodup_append.mp hnd' with ⟨_, _, hdisj⟩
      exact hdisj hmem (by simp)
    have hins : ∀ fv, imInsert acc k fv = acc ++ [(k, fv)] :=
      fun fv => imInsert_fresh acc k fv hk
    have hnd2 : nodupKeys ((acc ++ [(k, v)]) ++ rest) := by
      unfold nodupKeys at hnd ⊢
      simpa using hnd
    have htail := roundResponseCells rest (acc ++ [(k, v)]) hparts.2 hnd2
    cases v with
    | relationship r' =>
      have hr' : wfResponseRow r' = true := by
        simpa [wfResponseFieldValue] using hparts.1
      have hrow := roundResponseRow r' hr'
      simp only [serResponseCells, serResponseFieldValue,
        deserResponseCellEntries, hrow, hins, htail]
      simp
    | column j =>
      have hj : isRowShaped j = false := by
        simpa [wfResponseFieldValue] using hparts.1
      have hnone := deserResponseRow_of_not_rowShaped j hj
      simp only [serResponseCells, serResponseFieldValue,
        deserResponseCellEntries, hnone, hins, htail]
      simp
end

/-- Untagged `ResponseFieldValue` round-trip under well-formedness. -/
theorem roundResponseFieldValue (v : ResponseFieldValue)
    (h : wfResponseFieldValue v = true) :
    deserResponseFieldValue (serResponseFieldValue v) = some v := by
  cases v with
  | relationship r =>
    have hr : wfResponseRow r = true := by
      simpa [wfResponseFieldValue] using h
    simp [serResponseFieldValue, deserResponseFieldValue, roundResponseRow r hr]
  | column j =>
    have hj : isRowShaped j = false := by simpa [wfResponseFieldValue] using h
    simp [serResponseFieldValue, deserResponseFieldValue,
      deserResponseRow_of_not_rowShaped j hj]

/-- The `ResponseRow` visitor ignores every unknown member: an object without
`aggregates` and `rows` members parses to the all-absent row. -/
theorem deserResponseRowGo_unknown (kvs : List (String × Json))
    (agg : Option (Option (List (String × Json))))
    (rows : Option (Option (List (List (String × ResponseFieldValue)))))
    (h1 : "aggregates" ∉ kvs.map Prod.fst) (h2 : "rows" ∉ kvs.map Prod.fst) :
    deserResponseRowGo kvs agg rows = some (.mk agg.join rows.join) := by
  induction kvs with
  | nil => rfl
  | cons p rest ih =>
    obtain ⟨k, v⟩ := p
    have hk1 : k ≠ "aggregates" := by
      intro e; exact h1 (by simp [e])
    have hk2 : k ≠ "rows" := by
      intro e; exact h2 (by simp [e])
    have h1' : "aggregates" ∉ rest.map Prod.fst := by
      intro e; exact h1 (by simp [e])
    have h2' : "rows" ∉ rest.map Prod.fst := by
      intro e; exact h2 (by simp [e])
    simp [deserResponseRowGo, hk1, hk2, ih h1' h2']

/-! ## `QueryResponse` round-trip lemmas -/

theorem roundForEachRowList (rows : List ForEachRow)
    (h : wfForEachRows rows = true) :
    mapParse deserForEachRow (rows.map serForEachRow) = some rows := by
  induction rows with
  | nil => rfl
  | cons fr rest ih =>
    have hparts : wfResponseRow fr.query = true ∧ wfForEachRows rest = true := by
      simpa [wfForEachRows, Bool.and_eq_true] using h
    have hhead : deserForEachRow (serForEachRow fr) = some fr := by
      have hstep : deserForEachRow (serForEachRow fr) =
          (deserResponseRow (serResponseRow fr.query)).map ForEachRow.mk := rfl
      rw [hstep, roundResponseRow fr.query hparts.1]
      rfl
    simp [mapParse, hhead, ih hparts.2]

theorem roundForEachVariant (rows : List ForEachRow)
    (h : wfForEachRows rows = true) :
    deserForEachVariant (serQueryResponse (.forEach rows)) = some rows := by
  have hstep : deserForEachVariant (serQueryResponse (.forEach rows)) =
      mapParse deserForEachRow (rows.map serForEachRow) := rfl
  rw [hstep, roundForEachRowList rows h]

theorem roundUnaryComparisonOperator (op : UnaryComparisonOperator)
    (h : wfUnaryComparisonOperator op = true) :
    deserUnaryComparisonOperator (serUnaryComparisonOperator op) = some op := by
  cases op with
  | isNull => rfl
  | other s =>
    have hs : s ≠ "is_null" := by
      simpa [wfUnaryComparisonOperator] using h
    simp [serUnaryComparisonOperator, deserUnaryComparisonOperator, hs]

theorem roundBinaryComparisonOperator (op : BinaryComparisonOperator)
    (h : wfBinaryComparisonOperator op = true) :
    deserBinaryComparisonOperator (serBinaryComparisonOperator op) = some op := by
  cases op with
  | other s =>
    have hs : s ≠ "less_than" ∧ s ≠ "less_than_or_equal" ∧ s ≠ "equal" ∧
        s ≠ "greater_than" ∧ s ≠ "greater_than_or_equal" := by
      simpa [wfBinaryComparisonOperator] using h
    obtain ⟨h1, h2, h3, h4, h5⟩ := hs
    simp [serBinaryComparisonOperator, deserBinaryComparisonOperator,
      h1, h2, h3, h4, h5]
  | _ => rfl

theorem roundBinaryArrayComparisonOperator (op : BinaryArrayComparisonOperator)
    (h : wfBinaryArrayComparisonOperator op = true) :
    deserBinaryArrayComparisonOperator
      (serBinaryArrayComparisonOperator op) = some op := by
  cases op with
  | inOp => rfl
  | other s =>
    have hs : s ≠ "in" := by
      simpa [wfBinaryArrayComparisonOperator] using h
    simp [serBinaryArrayComparisonOperator, deserBinaryArrayComparisonOperator,
      hs]

theorem mem_keysOf_mkObj (k : String) (fs : List (String × Option Json)) :
    k ∈ keysOf (mkObj fs) ↔ ∃ jv, (k, some jv) ∈ fs := by
  simp only [keysOf, mkObj, List.mem_map, List.mem_filterMap]
  constructor
  · rintro ⟨pr, ⟨⟨k', ov⟩, hmem, hf⟩, hfst⟩
    rcases Option.map_eq_some'.mp hf with ⟨v, hov, hpv⟩
    subst hov
    subst hpv
    simp only at hfst
    subst hfst
    exact ⟨v, hmem⟩
  · rintro ⟨jv, hmem⟩
    exact ⟨(k, jv), ⟨(k, some jv), hmem, rfl⟩, rfl⟩

theorem serQuery_mk (a : Option (List (String × Aggregate))) (al : Option Nat)
    (f : Option (List (String × Field))) (l o : Option Nat)
    (ob : Option OrderBy) (w : Option Expression) :
    serQuery (.mk a al f l o ob w) =
      mkObj [("aggregates",
               a.map (fun m => Json.obj (m.map (fun p => (p.1, serAggregate p.2))))),
             ("aggregates_limit", al.map (fun n => Json.num (Int.ofNat n))),
             ("fields", serQueryFieldsMember f),
             ("limit", l.map (fun n => Json.num (Int.ofNat n))),
             ("offset", o.map (fun n => Json.num (Int.ofNat n))),
             ("order_by", ob.map serOrderBy),
             ("where", w.map serExpression)] := rfl

theorem serResponseRow_mk (agg : Option (List (String × Json)))
    (rows : Option (List (List (String × ResponseFieldValue)))) :
    serResponseRow (.mk agg rows) =
      mkObj [("aggregates", agg.map Json.obj),
             ("rows", serResponseRowsMember rows)] := rfl

theorem mapParseEntries_some (l : List (String × Json)) :
    mapParseEntries some l = some l := by
  induction l with
  | nil => rfl
  | cons p rest ih =>
    obtain ⟨k, v⟩ := p
    simp [mapParseEntries, ih]

theorem deserMapWith_some_not_obj (j : Json) (h : isObj j = false) :
    deserMapWith (α := Json) some j = none := by
  cases j <;> simp_all [deserMapWith, isObj]

theorem deserMapWith_some_obj (m : List (String × Json)) :
    deserMapWith some (.obj m) = some (imFromEntries m) := by
  simp [deserMapWith, mapParseEntries_some]

/-! ## Claims -/

/-- C1 (amended): serialize-then-deserialize is the identity on the response
model — `ResponseFieldValue` and `ResponseRow` values whose maps satisfy the
`IndexMap` distinct-key invariant and whose `Column` payloads are not
row-shaped (neither a JSON object nor a two-element array, the two input
shapes the `ResponseRow` struct deserializer can accept, the latter through
serde's positional struct-from-seq path) — and on every comparison-operator
enum whose `Other` payload is not a declared variant name.  The original
universal claim fails: an object-valued `Column` payload is re-parsed as the
untagged `Relationship` variant (see the counterexample), and a two-element
array-valued one such as `[null, null]` is re-parsed the same way. -/
theorem c1_roundtrip :
    (∀ v : ResponseFieldValue, wfResponseFieldValue v = true →
      deserResponseFieldValue (serResponseFieldValue v) = some v) ∧
    (∀ r : ResponseRow, wfResponseRow r = true →
      deserResponseRow (serResponseRow r) = some r) ∧
    (∀ op : UnaryComparisonOperator, wfUnaryComparisonOperator op = true →
      deserUnaryComparisonOperator (serUnaryComparisonOperator op) = some op) ∧
    (∀ op : BinaryComparisonOperator, wfBinaryComparisonOperator op = true →
      deserBinaryComparisonOperator (serBinaryComparisonOperator op) =
        some op) ∧
    (∀ op : BinaryArrayComparisonOperator,
      wfBinaryArrayComparisonOperator op = true →
      deserBinaryArrayComparisonOperator (serBinaryArrayComparisonOperator op) =
        some op) :=
  ⟨roundResponseFieldValue, roundResponseRow, roundUnaryComparisonOperator,
   roundBinaryComparisonOperator, roundBinaryArrayComparisonOperator⟩

/-- C1 witness: the round-trip theorem applied at concrete values, including
an `Other`-variant operator and a row with both optional fields absent. -/
theorem c1_roundtrip_witness :
    deserResponseFieldValue (serResponseFieldValue (.column (Json.str "x"))) =
      some (.column (Json.str "x")) ∧
    deserResponseRow (serResponseRow (.mk none none)) = some (.mk none none) ∧
    deserBinaryComparisonOperator
      (serBinaryComparisonOperator (.other "my_custom_op")) =
      some (.other "my_custom_op") :=
  ⟨c1_roundtrip.1 (.column (Json.str "x")) (by decide),
   c1_roundtrip.2.1 (.mk none none) (by decide),
   c1_roundtrip.2.2.2.1 (.other "my_custom_op") (by decide)⟩

/-- C1 counterexample: a `Column` whose payload is a JSON object does not
survive the round trip — the untagged deserializer returns the
`Relationship` variant instead. -/
theorem c1_object_column_breaks_roundtrip :
    deserResponseFieldValue
        (serResponseFieldValue (.column (Json.obj []))) =
      some (.relationship (.mk none none)) ∧
    (ResponseFieldValue.relationship (.mk none none) ≠
      .column (Json.obj [])) := by
  constructor
  · rfl
  · intro h
    exact ResponseFieldValue.noConfusion h

/-- C2 (amended): a `foreach` response serializes as an object whose `rows`
member lists `{query: row}` entries in binding order; a non-foreach response
serializes as the bare `ResponseRow` object; the untagged deserializer
attempts `ForEach` first and commits to it, falling back to `Single`; a
serialized `ForEach` deserializes back to `ForEach` provided its rows are
well formed (`IndexMap` distinct keys, and no row-shaped `Column` cell — an
object or two-element array payload would be re-parsed as `Relationship`),
and a serialized well-formed `Single` deserializes back to `Single` when —
but only when — its object does not also match the `ForEach` shape (see the
counterexample). -/
theorem c2_queryResponse_shape :
    (∀ rows, serQueryResponse (.forEach rows) =
      .obj [("rows", .arr (rows.map serForEachRow))]) ∧
    (∀ fr : ForEachRow, serForEachRow fr =
      .obj [("query", serResponseRow fr.query)]) ∧
    (∀ r, serQueryResponse (.single r) = serResponseRow r) ∧
    (∀ j rows, deserForEachVariant j = some rows →
      deserQueryResponse j = some (.forEach rows)) ∧
    (∀ j, deserForEachVariant j = none →
      deserQueryResponse j = (deserResponseRow j).map .single) ∧
    (∀ rows, wfForEachRows rows = true →
      deserQueryResponse (serQueryResponse (.forEach rows)) =
        some (.forEach rows)) ∧
    (∀ r, wfResponseRow r = true →
      deserForEachVariant (serResponseRow r) = none →
      deserQueryResponse (serQueryResponse (.single r)) = some (.single r)) := by
  refine ⟨fun rows => rfl, fun fr => rfl, fun r => rfl, ?_, ?_, ?_, ?_⟩
  · intro j rows h
    simp [deserQueryResponse, h]
  · intro j h
    simp [deserQueryResponse, h]
  · intro rows h
    simp [deserQueryResponse, roundForEachVariant rows h]
  · intro r hwf hshape
    have hser : serQueryResponse (.single r) = serResponseRow r := rfl
    simp [deserQueryResponse, hser, hshape, roundResponseRow r hwf]

/-- C2 witness: the shape theorem applied at a one-binding `foreach` response
and at an empty single response. -/
theorem c2_queryResponse_shape_witness :
    deserQueryResponse
        (serQueryResponse (.forEach [⟨.mk none none⟩])) =
      some (.forEach [⟨.mk none none⟩]) ∧
    deserQueryResponse (serQueryResponse (.single (.mk none none))) =
      some (.single (.mk none none)) :=
  ⟨c2_queryResponse_shape.2.2.2.2.2.1 [⟨.mk none none⟩] (by decide),
   c2_queryResponse_shape.2.2.2.2.2.2 (.mk none none) (by decide) rfl⟩

/-- C2 counterexample: a `Single` response whose only row binds the field
name `query` to a relationship value serializes to an object that also
matches the `ForEach` shape, so it deserializes to the `ForEach` variant,
not the `Single` variant that produced it. -/
theorem c2_single_parses_as_foreach :
    deserQueryResponse
        (serQueryResponse
          (.single (.mk none (some [[("query", .relationship (.mk none none))]])))) =
      some (.forEach [⟨.mk none none⟩]) ∧
    (QueryResponse.forEach [⟨.mk none none⟩] ≠
      .single (.mk none (some [[("query", .relationship (.mk none none))]]))) := by
  constructor
  · rfl
  · intro h
    exact QueryResponse.noConfusion h

/-- C3: for each comparison-operator enum with an `Other(String)` fallback,
and every string that is not a declared variant name, `Other(s)` serializes
to the literal JSON string `s` and that string deserializes back to
`Other(s)`. -/
theorem c3_other_operator_roundtrip :
    (∀ s : String, s ≠ "is_null" →
      serUnaryComparisonOperator (.other s) = .str s ∧
      deserUnaryComparisonOperator (.str s) = some (.other s)) ∧
    (∀ s : String, s ≠ "less_than" → s ≠ "less_than_or_equal" → s ≠ "equal" →
      s ≠ "greater_than" → s ≠ "greater_than_or_equal" →
      serBinaryComparisonOperator (.other s) = .str s ∧
      deserBinaryComparisonOperator (.str s) = some (.other s)) ∧
    (∀ s : String, s ≠ "in" →
      serBinaryArrayComparisonOperator (.other s) = .str s ∧
      deserBinaryArrayComparisonOperator (.str s) = some (.other s)) := by
  refine ⟨fun s h => ⟨rfl, ?_⟩, fun s h1 h2 h3 h4 h5 => ⟨rfl, ?_⟩,
    fun s h => ⟨rfl, ?_⟩⟩
  · simp [deserUnaryComparisonOperator, h]
  · simp [deserBinaryComparisonOperator, h1, h2, h3, h4, h5]
  · simp [deserBinaryArrayComparisonOperator, h]

/-- C3 witness: the round trip at the unrecognized operator name
`same_day_as`. -/
theorem c3_other_operator_roundtrip_witness :
    (serUnaryComparisonOperator (.other "same_day_as") = .str "same_day_as" ∧
      deserUnaryComparisonOperator (.str "same_day_as") =
        some (.other "same_day_as")) ∧
    (serBinaryComparisonOperator (.other "same_day_as") = .str "same_day_as" ∧
      deserBinaryComparisonOperator (.str "same_day_as") =
        some (.other "same_day_as")) ∧
    (serBinaryArrayComparisonOperator (.other "same_day_as") =
        .str "same_day_as" ∧
      deserBinaryArrayComparisonOperator (.str "same_day_as") =
        some (.other "same_day_as")) :=
  ⟨c3_other_operator_roundtrip.1 "same_day_as" (by decide),
   c3_other_operator_roundtrip.2.1 "same_day_as" (by decide) (by decide)
     (by decide) (by decide) (by decide),
   c3_other_operator_roundtrip.2.2 "same_day_as" (by decide)⟩

/-- C4: `ErrorResponseType` serializes to exactly one of the three kebab-case
strings, and deserializing any other string fails. -/
theorem c4_error_type_closed :
    (∀ e : ErrorResponseType,
      serErrorResponseType e = .str "uncaught-error" ∨
      serErrorResponseType e = .str "mutation-constraint-violation" ∨
      serErrorResponseType e = .str "mutation-permission-check-failure") ∧
    (∀ s : String, s ≠ "uncaught-error" → s ≠ "mutation-constraint-violation" →
      s ≠ "mutation-permission-check-failure" →
      deserErrorResponseType (.str s) = none) := by
  constructor
  · intro e
    cases e with
    | uncaughtError => exact Or.inl rfl
    | mutationConstraintViolation => exact Or.inr (Or.inl rfl)
    | mutationPermissionCheckFailure => exact Or.inr (Or.inr rfl)
  · intro s h1 h2 h3
    simp [deserErrorResponseType, h1, h2, h3]

/-- C4 witness: the closed taxonomy applied at a concrete variant and at the
unknown tag `validation-error`. -/
theorem c4_error_type_closed_witness :
    (serErrorResponseType .uncaughtError = .str "uncaught-error" ∨
      serErrorResponseType .uncaughtError =
        .str "mutation-constraint-violation" ∨
      serErrorResponseType .uncaughtError =
        .str "mutation-permission-check-failure") ∧
    deserErrorResponseType (.str "validation-error") = none :=
  ⟨c4_error_type_closed.1 .uncaughtError,
   c4_error_type_closed.2 "validation-error" (by decide) (by decide)
     (by decide)⟩

/-- C8 (amended): the untagged `ResponseFieldValue` deserializer yields
`Relationship` exactly on inputs that parse as a `ResponseRow`: every JSON
object without `aggregates`/`rows` members parses that way, but an object
whose `aggregates` or `rows` member is ill-typed falls through to `Column`
(see the counterexample); a two-element array can also parse as a
`ResponseRow` through serde's positional struct-from-seq path (for instance
`[null, null]` yields `Relationship`); every input that is neither an object
nor a two-element array yields `Column`. -/
theorem c8_rfv_shape_discrimination :
    (∀ j r, deserResponseRow j = some r →
      deserResponseFieldValue j = some (.relationship r)) ∧
    (∀ j, deserResponseRow j = none →
      deserResponseFieldValue j = some (.column j)) ∧
    (∀ kvs : List (String × Json), "aggregates" ∉ kvs.map Prod.fst →
      "rows" ∉ kvs.map Prod.fst →
      deserResponseRow (.obj kvs) = some (.mk none none)) ∧
    (∀ j, isRowShaped j = false →
      deserResponseFieldValue j = some (.column j)) ∧
    (deserResponseFieldValue (.arr [.null, .null]) =
      some (.relationship (.mk none none))) := by
  refine ⟨?_, ?_, ?_, ?_, rfl⟩
  · intro j r h
    simp [deserResponseFieldValue, h]
  · intro j h
    simp [deserResponseFieldValue, h]
  · intro kvs h1 h2
    have := deserResponseRowGo_unknown kvs none none h1 h2
    simpa [deserResponseRow] using this
  · intro j h
    simp [deserResponseFieldValue, deserResponseRow_of_not_rowShaped j h]

/-- C8 witness: the shape-discrimination theorem applied at an object with
only unknown members and at a scalar. -/
theorem c8_rfv_shape_discrimination_witness :
    deserResponseFieldValue (.obj [("name", .str "x")]) =
      some (.relationship (.mk none none)) ∧
    deserResponseFieldValue (.num 7) = some (.column (.num 7)) :=
  ⟨c8_rfv_shape_discrimination.1 (.obj [("name", .str "x")]) (.mk none none)
     (c8_rfv_shape_discrimination.2.2.1 [("name", .str "x")] (by decide)
       (by decide)),
   c8_rfv_shape_discrimination.2.2.2.1 (.num 7) (by decide)⟩

/-- C8 counterexample: a JSON object whose `rows` member is ill-typed does
not yield the `Relationship` variant — it deserializes to `Column`, refuting
the claim that every JSON object yields `Relationship` and that `Column` is
produced only for non-object values. -/
theorem c8_illtyped_object_yields_column :
    deserResponseFieldValue (.obj [("rows", .num 3)]) =
      some (.column (.obj [("rows", .num 3)])) := by
  rfl

/-- C6: the code admits an empty `TableName` — a `QueryRequest` whose target
is `{"type":"table","name":[]}` deserializes successfully to
`Target::Table { name: [] }`, contradicting the type's own documentation
("Possibly qualified table name. Must be non-empty", capabilities.rs 6–7). -/
theorem c6_empty_table_name_accepted :
    deserQueryRequest (.obj [("query", .obj []),
      ("target", .obj [("type", .str "table"), ("name", .arr [])]),
      ("relationships", .arr [])]) =
      some ⟨none, none, .mk none none none none none none none,
            .table [], []⟩ := by
  rfl

/-- C7: the code admits an empty `target_path` for an aggregate order-by
target — this `OrderByElement` with a `star_count_aggregate` target and
`"target_path": []` deserializes successfully, contradicting the field's own
documentation ("This is always non-empty for aggregate order by targets",
query.rs 180). -/
theorem c7_empty_aggregate_target_path_accepted :
    deserOrderByElement (.obj [("order_direction", .str "asc"),
      ("target", .obj [("type", .str "star_count_aggregate")]),
      ("target_path", .arr [])]) =
      some ⟨.asc, .starCountAggregate, []⟩ := by
  rfl

/-- C9: a `RowUpdate::Set` deserializes only when its `value` member is a
JSON object (it is an `IndexMap<String, Value>`): any non-object value
(scalar, array or null) fails, while `RowUpdate::CustomOperator` accepts any
JSON value as its operand. -/
theorem c9_rowUpdate_value_shapes :
    (∀ j : Json, isObj j = false →
      deserRowUpdate (.obj [("type", .str "set"), ("column", .str "c"),
        ("value", j), ("value_type", .str "t")]) = none) ∧
    (∀ m : List (String × Json),
      deserRowUpdate (.obj [("type", .str "set"), ("column", .str "c"),
        ("value", .obj m), ("value_type", .str "t")]) =
        some (.set "c" (imFromEntries m) "t")) ∧
    (∀ j : Json,
      deserRowUpdate (.obj [("type", .str "custom_operator"),
        ("column", .str "c"), ("operator_name", .str "op"), ("value", j),
        ("value_type", .str "t")]) =
        some (.customOperator "c" "op" j "t")) := by
  refine ⟨?_, ?_, fun j => rfl⟩
  · intro j h
    have hstep : deserRowUpdate (.obj [("type", .str "set"),
        ("column", .str "c"), ("value", j), ("value_type", .str "t")]) =
        (deserMapWith some j).bind (fun v => some (.set "c" v "t")) := rfl
    rw [hstep, deserMapWith_some_not_obj j h]
    rfl
  · intro m
    have hstep : deserRowUpdate (.obj [("type", .str "set"),
        ("column", .str "c"), ("value", .obj m), ("value_type", .str "t")]) =
        (deserMapWith some (.obj m)).bind (fun v => some (.set "c" v "t")) := rfl
    rw [hstep, deserMapWith_some_obj m]
    rfl

/-- C9 witness: a `Set` with a string value fails, a `Set` with an object
value and a `CustomOperator` with a null operand succeed. -/
theorem c9_rowUpdate_value_shapes_witness :
    deserRowUpdate (.obj [("type", .str "set"), ("column", .str "c"),
      ("value", .str "v"), ("value_type", .str "t")]) = none ∧
    deserRowUpdate (.obj [("type", .str "set"), ("column", .str "c"),
      ("value", .obj [("a", .num 1)]), ("value_type", .str "t")]) =
      some (.set "c" (imFromEntries [("a", .num 1)]) "t") ∧
    deserRowUpdate (.obj [("type", .str "custom_operator"),
      ("column", .str "c"), ("operator_name", .str "op"), ("value", .null),
      ("value_type", .str "t")]) =
      some (.customOperator "c" "op" .null "t") :=
  ⟨c9_rowUpdate_value_shapes.1 (.str "v") (by decide),
   c9_rowUpdate_value_shapes.2.1 [("a", .num 1)],
   c9_rowUpdate_value_shapes.2.2 .null⟩

set_option maxHeartbeats 2000000 in
/-- C10: `Field::Array.limit`/`offset` are `i64`, so a negative value in
range deserializes successfully on an array field, while `Query.limit`,
`Query.offset` and `Query.aggregates_limit` are `u64`, so a negative value
in any of those positions fails deserialization of the enclosing `Query`. -/
theorem c10_limit_offset_signedness :
    (∀ n : Int, -(2 ^ 63) ≤ n → n < 0 →
      deserField (.obj [("type", .str "array"),
        ("field", .obj [("type", .str "column"), ("column", .str "c"),
          ("column_type", .str "string")]),
        ("limit", .num n)]) =
        some (.array (.column "c" "string") (some n) none none)) ∧
    (∀ n : Int, -(2 ^ 63) ≤ n → n < 0 →
      deserField (.obj [("type", .str "array"),
        ("field", .obj [("type", .str "column"), ("column", .str "c"),
          ("column_type", .str "string")]),
        ("offset", .num n)]) =
        some (.array (.column "c" "string") none (some n) none)) ∧
    (∀ n : Int, n < 0 → deserQuery (.obj [("limit", .num n)]) = none) ∧
    (∀ n : Int, n < 0 → deserQuery (.obj [("offset", .num n)]) = none) ∧
    (∀ n : Int, n < 0 →
      deserQuery (.obj [("aggregates_limit", .num n)]) = none) := by
  have hI : ∀ n : Int, -(2 ^ 63) ≤ n → n < 0 →
      deserOpt deserI64 (.num n) = some (some n) := by
    intro n h1 h2
    have : deserI64 (.num n) = some n := by
      simp only [deserI64]
      rw [if_pos]
      omega
    simp [deserOpt, this]
  have hU : ∀ n : Int, n < 0 → deserOpt deserU64 (.num n) = none := by
    intro n h
    have : deserU64 (.num n) = none := by
      simp only [deserU64]
      rw [if_neg]
      omega
    simp [deserOpt, this]
  refine ⟨?_, ?_, ?_, ?_, ?_⟩
  · intro n h1 h2
    have hstep : deserField (.obj [("type", .str "array"),
        ("field", .obj [("type", .str "column"), ("column", .str "c"),
          ("column_type", .str "string")]),
        ("limit", .num n)]) =
        deserFieldArrayGo [("limit", Json.num n)]
          (some (.column "c" "string")) none none none := rfl
    rw [hstep]
    simp [deserFieldArrayGo, hI n h1 h2]
  · intro n h1 h2
    have hstep : deserField (.obj [("type", .str "array"),
        ("field", .obj [("type", .str "column"), ("column", .str "c"),
          ("column_type", .str "string")]),
        ("offset", .num n)]) =
        deserFieldArrayGo [("offset", Json.num n)]
          (some (.column "c" "string")) none none none := rfl
    rw [hstep]
    simp [deserFieldArrayGo, hI n h1 h2]
  · intro n h
    have hstep : deserQuery (.obj [("limit", .num n)]) =
        deserQueryGo [("limit", Json.num n)]
          none none none none none none none := rfl
    rw [hstep]
    simp [deserQueryGo, hU n h]
  · intro n h
    have hstep : deserQuery (.obj [("offset", .num n)]) =
        deserQueryGo [("offset", Json.num n)]
          none none none none none none none := rfl
    rw [hstep]
    simp [deserQueryGo, hU n h]
  · intro n h
    have hstep : deserQuery (.obj [("aggregates_limit", .num n)]) =
        deserQueryGo [("aggregates_limit", Json.num n)]
          none none none none none none none := rfl
    rw [hstep]
    simp [deserQueryGo, hU n h]

/-- C10 witness: the signedness theorem applied at `-1` in each position. -/
theorem c10_limit_offset_signedness_witness :
    deserField (.obj [("type", .str "array"),
      ("field", .obj [("type", .str "column"), ("column", .str "c"),
        ("column_type", .str "string")]),
      ("limit", .num (-1))]) =
      some (.array (.column "c" "string") (some (-1)) none none) ∧
    deserField (.obj [("type", .str "array"),
      ("field", .obj [("type", .str "column"), ("column", .str "c"),
        ("column_type", .str "string")]),
      ("offset", .num (-1))]) =
      some (.array (.column "c" "string") none (some (-1)) none) ∧
    deserQuery (.obj [("limit", .num (-1))]) = none ∧
    deserQuery (.obj [("offset", .num (-1))]) = none ∧
    deserQuery (.obj [("aggregates_limit", .num (-1))]) = none :=
  ⟨c10_limit_offset_signedness.1 (-1) (by norm_num) (by norm_num),
   c10_limit_offset_signedness.2.1 (-1) (by norm_num) (by norm_num),
   c10_limit_offset_signedness.2.2.1 (-1) (by norm_num),
   c10_limit_offset_signedness.2.2.2.1 (-1) (by norm_num),
   c10_limit_offset_signedness.2.2.2.2 (-1) (by norm_num)⟩

set_option maxHeartbeats 2000000 in
/-- C5: for every optional field of every serializable type under `src/`,
serializing a value whose field is absent (`None`) omits that field's key
from the produced JSON object entirely — in particular the key is never
emitted with a `null` value.  One conjunct per (type, optional field) pair,
covering query.rs, error.rs, mutation.rs, schema.rs and capabilities.rs
(raw.rs has no optional fields). -/
theorem c5_absent_optionals_omitted :
    (∀ iq q t rels,
      "foreach" ∉ keysOf (serQueryRequest ⟨none, iq, q, t, rels⟩)) ∧
    (∀ fe q t rels, "interpolated_queries" ∉
      keysOf (serQueryRequest ⟨fe, none, q, t, rels⟩)) ∧
    (∀ al f l o ob w,
      "aggregates" ∉ keysOf (serQuery (.mk none al f l o ob w))) ∧
    (∀ a f l o ob w,
      "aggregates_limit" ∉ keysOf (serQuery (.mk a none f l o ob w))) ∧
    (∀ a al l o ob w,
      "fields" ∉ keysOf (serQuery (.mk a al none l o ob w))) ∧
    (∀ a al f o ob w,
      "limit" ∉ keysOf (serQuery (.mk a al f none o ob w))) ∧
    (∀ a al f l ob w,
      "offset" ∉ keysOf (serQuery (.mk a al f l none ob w))) ∧
    (∀ a al f l o w,
      "order_by" ∉ keysOf (serQuery (.mk a al f l o none w))) ∧
    (∀ a al f l o ob,
      "where" ∉ keysOf (serQuery (.mk a al f l o ob none))) ∧
    (∀ fl o w, "limit" ∉ keysOf (serField (.array fl none o w))) ∧
    (∀ fl li w, "offset" ∉ keysOf (serField (.array fl li none w))) ∧
    (∀ fl li o, "where" ∉ keysOf (serField (.array fl li o none))) ∧
    (∀ ct n, "path" ∉ keysOf (serComparisonColumn ⟨ct, n, none⟩)) ∧
    (∀ rows, "aggregates" ∉ keysOf (serResponseRow (.mk none rows))) ∧
    (∀ agg, "rows" ∉ keysOf (serResponseRow (.mk agg none))) ∧
    (∀ subs, "where" ∉ keysOf (serOrderByRelation (.mk subs none))) ∧
    (∀ m t, "details" ∉ keysOf (serErrorResponse ⟨none, m, t⟩)) ∧
    (∀ d m, "type" ∉ keysOf (serErrorResponse ⟨d, m, none⟩)) ∧
    (∀ flds tbl,
      "primary_key" ∉ keysOf (serTableInsertSchema ⟨flds, none, tbl⟩)) ∧
    (∀ c ct nl, "value_generated" ∉
      keysOf (serInsertFieldSchema (.column c ct nl none))) ∧
    (∀ t w, "returning_fields" ∉
      keysOf (serMutationOperation (.delete none t w))) ∧
    (∀ rf t, "where" ∉ keysOf (serMutationOperation (.delete rf t none))) ∧
    (∀ rf rows t, "post_insert_check" ∉
      keysOf (serMutationOperation (.insert none rf rows t))) ∧
    (∀ pic rows t, "returning_fields" ∉
      keysOf (serMutationOperation (.insert pic none rows t))) ∧
    (∀ rf t ups w, "post_update_check" ∉
      keysOf (serMutationOperation (.update none rf t ups w))) ∧
    (∀ puc t ups w, "returning_fields" ∉
      keysOf (serMutationOperation (.update puc none t ups w))) ∧
    (∀ puc rf t ups, "where" ∉
      keysOf (serMutationOperation (.update puc rf t ups none))) ∧
    (∀ ar, "returning" ∉ keysOf (serMutationOperationResults ⟨ar, none⟩)) ∧
    (∀ caps cfg rn, "display_name" ∉
      keysOf (serCapabilitiesResponse ⟨caps, cfg, none, rn⟩)) ∧
    (∀ caps cfg dn, "release_name" ∉
      keysOf (serCapabilitiesResponse ⟨caps, cfg, dn, none⟩)) ∧
    (∀ x2 x3 x4 x5 x6 x7 x8 x9 x10 x11 x12 x13 x14 x15, "comparisons" ∉
      keysOf (serCapabilities
        ⟨none, x2, x3, x4, x5, x6, x7, x8, x9, x10, x11, x12, x13, x14, x15⟩)) ∧
    (∀ x1 x3 x4 x5 x6 x7 x8 x9 x10 x11 x12 x13 x14 x15, "data_schema" ∉
      keysOf (serCapabilities
        ⟨x1, none, x3, x4, x5, x6, x7, x8, x9, x10, x11, x12, x13, x14, x15⟩)) ∧
    (∀ x1 x2 x4 x5 x6 x7 x8 x9 x10 x11 x12 x13 x14 x15, "datasets" ∉
      keysOf (serCapabilities
        ⟨x1, x2, none, x4, x5, x6, x7, x8, x9, x10, x11, x12, x13, x14, x15⟩)) ∧
    (∀ x1 x2 x3 x5 x6 x7 x8 x9 x10 x11 x12 x13 x14 x15, "explain" ∉
      keysOf (serCapabilities
        ⟨x1, x2, x3, none, x5, x6, x7, x8, x9, x10, x11, x12, x13, x14, x15⟩)) ∧
    (∀ x1 x2 x3 x4 x6 x7 x8 x9 x10 x11 x12 x13 x14 x15,
      "interpolated_queries" ∉
      keysOf (serCapabilities
        ⟨x1, x2, x3, x4, none, x6, x7, x8, x9, x10, x11, x12, x13, x14, x15⟩)) ∧
    (∀ x1 x2 x3 x4 x5 x7 x8 x9 x10 x11 x12 x13 x14 x15, "licensing" ∉
      keysOf (serCapabilities
        ⟨x1, x2, x3, x4, x5, none, x7, x8, x9, x10, x11, x12, x13, x14, x15⟩)) ∧
    (∀ x1 x2 x3 x4 x5 x6 x8 x9 x10 x11 x12 x13 x14 x15, "metrics" ∉
      keysOf (serCapabilities
        ⟨x1, x2, x3, x4, x5, x6, none, x8, x9, x10, x11, x12, x13, x14, x15⟩)) ∧
    (∀ x1 x2 x3 x4 x5 x6 x7 x9 x10 x11 x12 x13 x14 x15, "mutations" ∉
      keysOf (serCapabilities
        ⟨x1, x2, x3, x4, x5, x6, x7, none, x9, x10, x11, x12, x13, x14, x15⟩)) ∧
    (∀ x1 x2 x3 x4 x5 x6 x7 x8 x10 x11 x12 x13 x14 x15, "queries" ∉
      keysOf (serCapabilities
        ⟨x1, x2, x3, x4, x5, x6, x7, x8, none, x10, x11, x12, x13, x14, x15⟩)) ∧
    (∀ x1 x2 x3 x4 x5 x6 x7 x8 x9 x11 x12 x13 x14 x15, "raw" ∉
      keysOf (serCapabilities
        ⟨x1, x2, x3, x4, x5, x6, x7, x8, x9, none, x11, x12, x13, x14, x15⟩)) ∧
    (∀ x1 x2 x3 x4 x5 x6 x7 x8 x9 x10 x12 x13 x14 x15, "relationships" ∉
      keysOf (serCapabilities
        ⟨x1, x2, x3, x4, x5, x6, x7, x8, x9, x10, none, x12, x13, x14, x15⟩)) ∧
    (∀ x1 x2 x3 x4 x5 x6 x7 x8 x9 x10 x11 x13 x14 x15, "scalar_types" ∉
      keysOf (serCapabilities
        ⟨x1, x2, x3, x4, x5, x6, x7, x8, x9, x10, x11, none, x13, x14, x15⟩)) ∧
    (∀ x1 x2 x3 x4 x5 x6 x7 x8 x9 x10 x11 x12 x14 x15, "subscriptions" ∉
      keysOf (serCapabilities
        ⟨x1, x2, x3, x4, x5, x6, x7, x8, x9, x10, x11, x12, none, x14, x15⟩)) ∧
    (∀ x1 x2 x3 x4 x5 x6 x7 x8 x9 x10 x11 x12 x13 x15,
      "user_defined_functions" ∉
      keysOf (serCapabilities
        ⟨x1, x2, x3, x4, x5, x6, x7, x8, x9, x10, x11, x12, x13, none, x15⟩)) ∧
    (∀ x1 x2 x3 x4 x5 x6 x7 x8 x9 x10 x11 x12 x13 x14,
      "post_schema_capabilities" ∉
      keysOf (serCapabilities
        ⟨x1, x2, x3, x4, x5, x6, x7, x8, x9, x10, x11, x12, x13, x14, none⟩)) ∧
    ("subquery" ∉ keysOf (serComparisonCapabilities ⟨none⟩)) ∧
    ("supports_relations" ∉
      keysOf (serSubqueryComparisonCapabilities ⟨none⟩)) ∧
    (∀ x2 x3 x4, "column_nullability" ∉
      keysOf (serDataSchemaCapabilities ⟨none, x2, x3, x4⟩)) ∧
    (∀ x1 x3 x4, "supports_foreign_keys" ∉
      keysOf (serDataSchemaCapabilities ⟨x1, none, x3, x4⟩)) ∧
    (∀ x1 x2 x4, "supports_primary_keys" ∉
      keysOf (serDataSchemaCapabilities ⟨x1, x2, none, x4⟩)) ∧
    (∀ x1 x2 x3, "supports_schemaless_tables" ∉
      keysOf (serDataSchemaCapabilities ⟨x1, x2, x3, none⟩)) ∧
    (∀ x2 x3 x4 x5, "atomicity_support_level" ∉
      keysOf (serMutationCapabilities ⟨none, x2, x3, x4, x5⟩)) ∧
    (∀ x1 x3 x4 x5, "delete" ∉
      keysOf (serMutationCapabilities ⟨x1, none, x3, x4, x5⟩)) ∧
    (∀ x1 x2 x4 x5, "insert" ∉
      keysOf (serMutationCapabilities ⟨x1, x2, none, x4, x5⟩)) ∧
    (∀ x1 x2 x3 x5, "returning" ∉
      keysOf (serMutationCapabilities ⟨x1, x2, x3, none, x5⟩)) ∧
    (∀ x1 x2 x3 x4, "update" ∉
      keysOf (serMutationCapabilities ⟨x1, x2, x3, x4, none⟩)) ∧
    ("supports_nested_inserts" ∉ keysOf (serInsertCapabilities ⟨none⟩)) ∧
    ("foreach" ∉ keysOf (serQueryCapabilities ⟨none⟩)) ∧
    (∀ x2 x3 x4, "aggregate_functions" ∉
      keysOf (serScalarTypeCapabilities ⟨none, x2, x3, x4⟩)) ∧
    (∀ x1 x3 x4, "comparison_operators" ∉
      keysOf (serScalarTypeCapabilities ⟨x1, none, x3, x4⟩)) ∧
    (∀ x1 x2 x4, "graphql_type" ∉
      keysOf (serScalarTypeCapabilities ⟨x1, x2, none, x4⟩)) ∧
    (∀ x1 x2 x3, "update_column_operators" ∉
      keysOf (serScalarTypeCapabilities ⟨x1, x2, x3, none⟩)) ∧
    (∀ fl, "detail_level" ∉ keysOf (serSchemaRequest ⟨none, fl⟩)) ∧
    (∀ dl, "filters" ∉ keysOf (serSchemaRequest ⟨dl, none⟩)) ∧
    (∀ ot, "only_functions" ∉ keysOf (serSchemaFilters ⟨none, ot⟩)) ∧
    (∀ ofn, "only_tables" ∉ keysOf (serSchemaFilters ⟨ofn, none⟩)) ∧
    (∀ tbls fns, "object_types" ∉
      keysOf (serSchemaResponse ⟨none, tbls, fns⟩)) ∧
    (∀ ots tbls, "functions" ∉ keysOf (serSchemaResponse ⟨ots, tbls, none⟩)) ∧
    (∀ d n rc rt ty, "args" ∉
      keysOf (serFunctionInfo ⟨none, d, n, rc, rt, ty⟩)) ∧
    (∀ ags n rc rt ty, "description" ∉
      keysOf (serFunctionInfo ⟨ags, none, n, rc, rt, ty⟩)) ∧
    (∀ ags d n rt ty, "response_cardinality" ∉
      keysOf (serFunctionInfo ⟨ags, d, n, none, rt, ty⟩)) ∧
    (∀ ags d n rc ty, "returns" ∉
      keysOf (serFunctionInfo ⟨ags, d, n, rc, none, ty⟩)) ∧
    (∀ n ty, "optional" ∉
      keysOf (serFunctionInformationArgument ⟨n, none, ty⟩)) ∧
    (∀ cols n, "description" ∉
      keysOf (serObjectTypeDefinition ⟨cols, none, n⟩)) ∧
    (∀ i n nl ty u vg, "description" ∉
      keysOf (serColumnInfo ⟨none, i, n, nl, ty, u, vg⟩)) ∧
    (∀ d n nl ty u vg, "insertable" ∉
      keysOf (serColumnInfo ⟨d, none, n, nl, ty, u, vg⟩)) ∧
    (∀ d i n nl ty vg, "updatable" ∉
      keysOf (serColumnInfo ⟨d, i, n, nl, ty, none, vg⟩)) ∧
    (∀ d i n nl ty u, "value_generated" ∉
      keysOf (serColumnInfo ⟨d, i, n, nl, ty, u, none⟩)) ∧
    (∀ x2 x3 x4 x5 nm x7 x8 x9, "columns" ∉
      keysOf (serTableInfo ⟨none, x2, x3, x4, x5, nm, x7, x8, x9⟩)) ∧
    (∀ x1 x3 x4 x5 nm x7 x8 x9, "deletable" ∉
      keysOf (serTableInfo ⟨x1, none, x3, x4, x5, nm, x7, x8, x9⟩)) ∧
    (∀ x1 x2 x4 x5 nm x7 x8 x9, "description" ∉
      keysOf (serTableInfo ⟨x1, x2, none, x4, x5, nm, x7, x8, x9⟩)) ∧
    (∀ x1 x2 x3 x5 nm x7 x8 x9, "foreign_keys" ∉
      keysOf (serTableInfo ⟨x1, x2, x3, none, x5, nm, x7, x8, x9⟩)) ∧
    (∀ x1 x2 x3 x4 nm x7 x8 x9, "insertable" ∉
      keysOf (serTableInfo ⟨x1, x2, x3, x4, none, nm, x7, x8, x9⟩)) ∧
    (∀ x1 x2 x3 x4 x5 nm x8 x9, "primary_key" ∉
      keysOf (serTableInfo ⟨x1, x2, x3, x4, x5, nm, none, x8, x9⟩)) ∧
    (∀ x1 x2 x3 x4 x5 nm x7 x9, "type" ∉
      keysOf (serTableInfo ⟨x1, x2, x3, x4, x5, nm, x7, none, x9⟩)) ∧
    (∀ x1 x2 x3 x4 x5 nm x7 x8, "updatable" ∉
      keysOf (serTableInfo ⟨x1, x2, x3, x4, x5, nm, x7, x8, none⟩)) := by
  refine ⟨?_, ?_, ?_, ?_, ?_, ?_, ?_, ?_, ?_, ?_, ?_, ?_, ?_, ?_, ?_, ?_, ?_,
    ?_, ?_, ?_, ?_, ?_, ?_, ?_, ?_, ?_, ?_, ?_, ?_, ?_, ?_, ?_, ?_, ?_, ?_,
    ?_, ?_, ?_, ?_, ?_, ?_, ?_, ?_, ?_, ?_, ?_, ?_, ?_, ?_, ?_, ?_, ?_, ?_,
    ?_, ?_, ?_, ?_, ?_, ?_, ?_, ?_, ?_, ?_, ?_, ?_, ?_, ?_, ?_, ?_, ?_, ?_,
    ?_, ?_, ?_, ?_, ?_, ?_, ?_, ?_, ?_, ?_⟩ <;>
  · intros
    simp [serQueryRequest, serQuery_mk, serField, serComparisonColumn,
      serResponseRow_mk, serOrderByRelation, serErrorResponse,
      serTableInsertSchema, serInsertFieldSchema, serMutationOperation,
      serMutationOperationResults, serCapabilitiesResponse, serCapabilities,
      serComparisonCapabilities, serSubqueryComparisonCapabilities,
      serDataSchemaCapabilities, serMutationCapabilities,
      serInsertCapabilities, serQueryCapabilities, serScalarTypeCapabilities,
      serSchemaRequest, serSchemaFilters, serSchemaResponse, serFunctionInfo,
      serFunctionInformationArgument, serObjectTypeDefinition, serColumnInfo,
      serTableInfo, mem_keysOf_mkObj, serQueryFieldsMember,
      serResponseRowsMember]

end GdcTypes
